import Mathlib

/-!
Verification development for the cw20-bondcamp contract
(bonding-curve token with a liquid-staking derivative).

The contract's own logic (src/bonding.rs, src/staking.rs, src/contract.rs,
src/state.rs, src/error.rs) is embedded shallowly below: machine
`Uint128` values become `Nat` (additions in the source panic rather than
wrap on overflow, which aborts the transaction, so no wrap-around
behaviour is observable), `checked_sub` becomes an explicit `Except`
underflow test, and every fallible operation returns
`Except ContractError (ContractState × Response)`; an error means the host
rolls back every write, so the pre-state is unchanged.

Components the contract links against but whose source is not part of
this repository (the curve engine `cw20_bonding::curves`, the payment
helper `cw0::must_pay`, and the claims queue `cw_controllers::Claims`)
are modelled from the specification; each such definition carries a
doc comment starting with `Modelled from the spec:`.
-/

namespace Bondcamp

/-- A native coin: denomination plus amount (`cosmwasm_std::Coin`). -/
structure Coin where
  denom : String
  amount : Nat
deriving Repr, DecidableEq

/-- Caller identity and attached funds (`cosmwasm_std::MessageInfo`). -/
structure MessageInfo where
  sender : String
  funds : List Coin
deriving Repr, DecidableEq

/-- Invocation environment: the contract's own address and the logical
block time (`cosmwasm_std::Env`). -/
structure Env where
  contract_address : String
  time : Nat
deriving Repr, DecidableEq

/-- External oracle data supplied by the host for one invocation:
the contract's current delegations and its liquid balance of the bond
denomination (`deps.querier`). -/
structure Querier where
  delegations : List Coin
  balance : Nat
deriving Repr, DecidableEq

/-- External effects emitted by an operation (subset of `CosmosMsg`
used by this contract). -/
inductive CosmosMsg where
  | bankSend (to_address : String) (amount : Coin)
  | stakingDelegate (validator : String) (amount : Coin)
  | stakingUndelegate (validator : String) (amount : Coin)
  | withdrawReward (validator : String)
  | callBondAllTokens
deriving Repr, DecidableEq

/-- Result value of a successful operation: ordered effects plus
auditable attributes (`cosmwasm_std::Response`). -/
structure Response where
  messages : List CosmosMsg
  attributes : List (String × String)
deriving Repr, DecidableEq

/-- Response.default: no messages, no attributes (src/staking.rs:298). -/
def Response.default : Response := { messages := [], attributes := [] }

/-- Error cases of `ContractError` (src/error.rs) plus the `StdError`
overflow and the `cw0::PaymentError` cases routed through it. -/
inductive ContractError where
  | stdOverflowSub (minuend subtrahend : Nat)
  | paymentNoFunds
  | paymentMissingDenom (denom : String)
  | paymentMultipleDenoms
  | paymentNonPayable
  | invalidZeroAmount
  | cannotExceedCap
  | unauthorized
  | differentBondDenom (denom1 denom2 : String)
  | bondedMismatch (stored queried : Nat)
  | emptyBalance (denom : String)
  | unbondTooSmall (min_bonded : Nat) (denom : String)
  | balanceTooSmall
  | nothingToClaim
  | noAllowance
  | notInValidatorSet (validator : String)
deriving Repr, DecidableEq

/-- Uint128::checked_sub: errors with an overflow `StdError` on
underflow, as in the source's `.checked_sub(..).map_err(StdError::overflow)`. -/
def checkedSub (a b : Nat) : Except ContractError Nat :=
  if b ≤ a then .ok (a - b) else .error (.stdOverflowSub a b)

/-- Fixed-point fraction with 18 decimal places (`cosmwasm_std::Decimal`):
only the numerator is stored, the denominator is `10^18`. -/
def decimalFractional : Nat := 10 ^ 18

/-- Truncating multiplication `Uint128 * Decimal` from cosmwasm_std:
`amount.multiply_ratio(numerator, 10^18)`, i.e. full-width product then
truncating division. Used for `amount * invest.exit_tax`
(src/staking.rs:135). -/
def decMul (amount numerator : Nat) : Nat :=
  amount * numerator / decimalFractional


/-! ## Curve Engine (modelled from the spec)

The curve engine (`cw20_bonding::curves`) is linked from the cw20-bonding
crate and its source is not under src/.  It is modelled here from the
specification: three total functions per configured curve shape
(constant / linear / square-root, each parameterized by a slope or value
and a power-of-ten scale), all arithmetic on fixed-point rationals scaled
by the configured decimal places, truncation (not rounding) on divide.
The model reproduces the repository's own unit-test figures
(`buy_issues_tokens`, `burning_sends_reserve`, `cw20_imports_work`). -/

/-- natCbrt n is the greatest k with k^3 ≤ n (integer cube root). -/
def natCbrt (n : Nat) : Nat :=
  Nat.findGreatest (fun k => k ^ 3 ≤ n) n

/-- How many decimal places normalize the supply and reserve tokens
(`cw20_bonding::curves::DecimalPlaces`, stored in `CurveState.decimals`). -/
structure DecimalPlaces where
  supply : Nat
  reserve : Nat
deriving Repr, DecidableEq

/-- Modelled from the spec: curve shape selection recognized at creation,
"linear / square-root / constant, each parameterized by slope/scale or
fixed value" (`cw20_bonding::msg::CurveType`). The stored integer together
with `scale` denotes the decimal fraction `value / 10^scale`. -/
inductive CurveType where
  | constant (value scale : Nat)
  | linear (slope scale : Nat)
  | squareRoot (slope scale : Nat)
deriving Repr, DecidableEq

/-- Modelled from the spec: `supply_for(reserve) -> supply`, the curve
function mapping collected reserve to issued supply, computed on
fixed-point rationals with truncation.  Shapes (with `v = value/10^scale`,
`s = slope/10^scale`, normalized values `x = units / 10^decimals`):
constant `supply = reserve / v`; linear `supply = sqrt(2*reserve/s)`;
square-root `supply = (3*reserve/(2*s))^(2/3)`.  Each result is scaled
back to supply units and truncated; the integer square and cube roots
below compute exactly the floor of the real-valued expression. -/
def supply_for : CurveType → DecimalPlaces → Nat → Nat
  | .constant value scale, dp, r =>
      r * 10 ^ (scale + dp.supply) / (value * 10 ^ dp.reserve)
  | .linear slope scale, dp, r =>
      Nat.sqrt (2 * r * 10 ^ (scale + 2 * dp.supply) / (slope * 10 ^ dp.reserve))
  | .squareRoot slope scale, dp, r =>
      natCbrt (9 * r ^ 2 * 10 ^ (2 * scale + 3 * dp.supply) /
        (4 * slope ^ 2 * 10 ^ (2 * dp.reserve)))

/-- Modelled from the spec: `reserve_for(supply) -> reserve`, the inverse
curve function, truncating.  Shapes: constant `reserve = supply * v`;
linear `reserve = s * supply^2 / 2`; square-root
`reserve = 2*s*supply^(3/2)/3`. -/
def reserve_for : CurveType → DecimalPlaces → Nat → Nat
  | .constant value scale, dp, q =>
      q * value * 10 ^ dp.reserve / 10 ^ (scale + dp.supply)
  | .linear slope scale, dp, q =>
      q ^ 2 * slope * 10 ^ dp.reserve / (2 * 10 ^ (scale + 2 * dp.supply))
  | .squareRoot slope scale, dp, q =>
      Nat.sqrt (4 * slope ^ 2 * 10 ^ (2 * dp.reserve) * q ^ 3 /
        (9 * 10 ^ (2 * scale + 3 * dp.supply)))

/-- A curve parameterization is valid when its slope or value is
positive (a zero slope would make the curve engine divide by zero). -/
def CurveType.valid : CurveType → Prop
  | .constant value _ => 0 < value
  | .linear slope _ => 0 < slope
  | .squareRoot slope _ => 0 < slope

instance : DecidablePred CurveType.valid := by
  intro c
  cases c <;> simp [CurveType.valid] <;> infer_instance

/-! ## Data model (src/state.rs) -/

/-- Canonical cached aggregate state: reserve collected, supply issued,
reserve denomination, decimal normalization, pending-claims counter
(src/state.rs:19). -/
structure CurveState where
  reserve : Nat
  supply : Nat
  reserve_denom : String
  decimals : DecimalPlaces
  claims : Nat
deriving Repr, DecidableEq

/-- Token-ledger configuration: total supply, the single authorized
minter and optional cap (`cw20_base::state::TokenInfo`, nested in
`TokenInfoWithMeta`, src/state.rs:49).  Name/symbol/meta strings are
omitted: no claim mentions them. -/
structure TokenInfo where
  total_supply : Nat
  minter : String
  cap : Option Nat
deriving Repr, DecidableEq

/-- Investment parameters fixed at instantiation (src/state.rs:66). -/
structure InvestmentInfo where
  owner : String
  bond_denom : String
  unbonding_period : Nat
  exit_tax : Nat
  validator : String
  min_withdrawal : Nat
deriving Repr, DecidableEq

/-- One pending redemption: amount plus maturity time
(`cw_controllers::Claim`). -/
structure ClaimEntry where
  amount : Nat
  release_at : Nat
deriving Repr, DecidableEq

/-- Whole persistent state of one contract instance: token ledger
balances (`cw20_base::state::BALANCES`), token info, curve state,
investment info and the per-account claims queue. -/
structure ContractState where
  balances : List (String × Nat)
  token_info : TokenInfo
  curve_state : CurveState
  invest : InvestmentInfo
  claims_queue : List (String × ClaimEntry)
  allowances : List ((String × String) × Nat)
deriving Repr, DecidableEq

/-- Balance lookup: first entry for the address, `0` if unset
(`balance.unwrap_or_default()`). -/
def getBal : List (String × Nat) → String → Nat
  | [], _ => 0
  | (b, w) :: t, a => if b = a then w else getBal t a

/-- Balance write: replaces the first entry for the address or appends a
new one (`BALANCES.update`). -/
def setBal : List (String × Nat) → String → Nat → List (String × Nat)
  | [], a, v => [(a, v)]
  | (b, w) :: t, a, v => if b = a then (a, v) :: t else (b, w) :: setBal t a v

/-- Sum of all per-account ledger balances. -/
def sumBal (l : List (String × Nat)) : Nat :=
  (l.map (fun p => p.2)).sum

/-! ## Token Ledger and Buy/Sell Engine (src/bonding.rs) -/

/-- Modelled from the spec: `cw0::must_pay` (not under src/) — "payment
must be a single, correctly-denominated positive amount (reject with a
payment error otherwise — no funds, wrong denomination, or multiple
denominations)".  The error cases match the repository's own test
`buying_fails_with_wrong_denom`. -/
def must_pay (info : MessageInfo) (denom : String) : Except ContractError Nat :=
  match info.funds with
  | [] => .error .paymentNoFunds
  | [c] =>
      if c.amount = 0 then .error .paymentNoFunds
      else if c.denom = denom then .ok c.amount
      else .error (.paymentMissingDenom denom)
  | _ => .error .paymentMultipleDenoms

/-- Modelled from the spec: `cw0::nonpayable` (not under src/) — sell
"requires no attached payment". -/
def nonpayable (info : MessageInfo) : Except ContractError Unit :=
  if info.funds = [] then .ok () else .error .paymentNonPayable

/-- execute_burn (src/bonding.rs:18): fails on zero amount, lowers the
owner's balance and the total supply with checked subtraction. -/
def execute_burn (s : ContractState) (info : MessageInfo) (amount : Nat) :
    Except ContractError (ContractState × Response) := do
  if amount = 0 then throw .invalidZeroAmount
  let bal := getBal s.balances info.sender
  let bal' ← checkedSub bal amount
  let total' ← checkedSub s.token_info.total_supply amount
  let s' := { s with
    balances := setBal s.balances info.sender bal',
    token_info := { s.token_info with total_supply := total' } }
  let res : Response :=
    { messages := [],
      attributes := [("action", "burn"), ("from", info.sender),
        ("amount", toString amount)] }
  pure (s', res)

/-- execute_mint (src/bonding.rs:53): fails on zero amount, rejects any
sender other than the fixed minter, raises total supply (enforcing the
optional cap) and the recipient's balance. -/
def execute_mint (s : ContractState) (info : MessageInfo)
    (recipient : String) (amount : Nat) :
    Except ContractError (ContractState × Response) := do
  if amount = 0 then throw .invalidZeroAmount
  if s.token_info.minter ≠ info.sender then throw .unauthorized
  let total' := s.token_info.total_supply + amount
  match s.token_info.cap with
  | some limit => if limit < total' then throw .cannotExceedCap
  | none => pure ()
  let s' := { s with
    token_info := { s.token_info with total_supply := total' },
    balances := setBal s.balances recipient (getBal s.balances recipient + amount) }
  let res : Response :=
    { messages := [],
      attributes := [("action", "mint"), ("to", recipient),
        ("amount", toString amount)] }
  pure (s', res)

/-- execute_buy (src/bonding.rs:101): takes a single payment of the
reserve denomination, adds it to the reserve, recomputes the supply from
the curve, and mints the difference to the payer acting as self. -/
def execute_buy (s : ContractState) (env : Env) (info : MessageInfo)
    (curve : CurveType) : Except ContractError (ContractState × Response) := do
  let payment ← must_pay info s.curve_state.reserve_denom
  let reserve' := s.curve_state.reserve + payment
  let new_supply := supply_for curve s.curve_state.decimals reserve'
  let minted ← checkedSub new_supply s.curve_state.supply
  let s := { s with curve_state :=
    { s.curve_state with reserve := reserve', supply := new_supply } }
  let sub_info : MessageInfo := { sender := env.contract_address, funds := [] }
  let (s, _) ← execute_mint s sub_info info.sender minted
  let res : Response :=
    { messages := [],
      attributes := [("action", "buy"), ("from", info.sender),
        ("reserve", toString payment), ("supply", toString minted)] }
  pure (s, res)

/-- do_sell (src/bonding.rs:196): burns from the seller, lowers the curve
supply, releases the reserve difference and sends it to the receiver. -/
def do_sell (s : ContractState) (info : MessageInfo) (curve : CurveType)
    (receiver : String) (amount : Nat) :
    Except ContractError (ContractState × Response) := do
  let (s, _) ← execute_burn s info amount
  let supply' ← checkedSub s.curve_state.supply amount
  let new_reserve := reserve_for curve s.curve_state.decimals supply'
  let released ← checkedSub s.curve_state.reserve new_reserve
  let s' := { s with curve_state :=
    { s.curve_state with supply := supply', reserve := new_reserve } }
  let res : Response :=
    { messages := [.bankSend receiver ⟨s'.curve_state.reserve_denom, released⟩],
      attributes := [("from", info.sender), ("supply", toString amount),
        ("reserve", toString released)] }
  pure (s', res)

/-- execute_sell (src/bonding.rs:141): the self-sell entry — no attached
payment, burner is caller, receiver is caller. -/
def execute_sell (s : ContractState) (info : MessageInfo) (curve : CurveType)
    (amount : Nat) : Except ContractError (ContractState × Response) := do
  let _ ← nonpayable info
  let (s', res) ← do_sell s info curve info.sender amount
  pure (s', { res with attributes := res.attributes ++ [("action", "burn")] })

/-! ## Staking-Derivative Engine (src/staking.rs) -/

/-- get_bonded (src/staking.rs:17): total amount of delegations from the
contract; all delegations must share one denomination. -/
def get_bonded (delegations : List Coin) : Except ContractError Nat :=
  match delegations with
  | [] => .ok 0
  | d0 :: _ =>
      delegations.foldl
        (fun racc d => do
          let acc ← racc
          if d.denom ≠ d0.denom then
            throw (.differentBondDenom d0.denom d.denom)
          else
            pure (acc + d.amount))
        (.ok 0)

/-- assert_bonds (src/staking.rs:36): the reconciliation invariant — the
cached reserve must equal the externally queried bonded total. -/
def assert_bonds (cs : CurveState) (bonded : Nat) : Except ContractError Unit :=
  if cs.reserve ≠ bonded then
    .error (.bondedMismatch cs.reserve bonded)
  else
    .ok ()

/-- bond (src/staking.rs:47): finds the bond-denomination payment among
the attached funds, checks the reconciliation invariant, then applies the
same curve-based mint computation as execute_buy and emits a delegate
effect for the payment. -/
def bond (s : ContractState) (env : Env) (info : MessageInfo)
    (curve : CurveType) (q : Querier) :
    Except ContractError (ContractState × Response) := do
  let invest := s.invest
  let some payment := info.funds.find? (fun x => x.denom = invest.bond_denom)
    | throw (.emptyBalance invest.bond_denom)
  let bonded ← get_bonded q.delegations
  let _ ← assert_bonds s.curve_state bonded
  let reserve' := s.curve_state.reserve + payment.amount
  let new_supply := supply_for curve s.curve_state.decimals reserve'
  let minted ← checkedSub new_supply s.curve_state.supply
  let s := { s with curve_state :=
    { s.curve_state with reserve := reserve', supply := new_supply } }
  let sub_info : MessageInfo := { sender := env.contract_address, funds := [] }
  let (s, _) ← execute_mint s sub_info info.sender minted
  let res : Response :=
    { messages := [.stakingDelegate invest.validator payment],
      attributes := [("action", "bond"), ("from", info.sender),
        ("bonded", toString payment.amount), ("minted", toString minted)] }
  pure (s, res)

/-- Claims queue of one account, in insertion order. -/
def queueOf (s : ContractState) (addr : String) : List ClaimEntry :=
  (s.claims_queue.filter (fun p => p.1 = addr)).map (fun p => p.2)

/-- Modelled from the spec: `cw_controllers::Claims::create_claim` (not
under src/) — "records that reserve amount as a new entry in the Claims
Queue for the caller". -/
def create_claim (s : ContractState) (addr : String) (amount release_at : Nat) :
    ContractState :=
  { s with claims_queue := s.claims_queue ++ [(addr, ⟨amount, release_at⟩)] }

/-- Sum of the amounts of an account's matured claims (maturity time has
passed at the given logical time). -/
def maturedSum (queue : List ClaimEntry) (now : Nat) : Nat :=
  ((queue.filter (fun c => c.release_at ≤ now)).map (fun c => c.amount)).sum

/-- Modelled from the spec: `cw_controllers::Claims::claim_tokens` (not
under src/) — releases the account's matured claims "up to the lesser of
(a) the sum of matured claim amounts and (b) the available liquid
balance"; "a claim can be partially released only by splitting amount
(the remainder stays pending at the same maturity)".  Returns the
released total and the residual queue. -/
def claim_tokens (queue : List ClaimEntry) (now cap : Nat) :
    Nat × List ClaimEntry :=
  let matured := queue.filter (fun c => c.release_at ≤ now)
  let pending := queue.filter (fun c => ¬ c.release_at ≤ now)
  let total := (matured.map (fun c => c.amount)).sum
  let to_send := min total cap
  if to_send < total then
    (to_send, ⟨total - to_send, now⟩ :: pending)
  else
    (to_send, pending)

/-- unbond (src/staking.rs:119): rejects amounts below the withdrawal
floor, takes the exit tax in derivative tokens, burns the full amount
from the caller, re-checks the reconciliation invariant, converts the
remainder to reserve via the curve, queues a claim maturing after the
unbonding period, and emits an undelegate effect. -/
def unbond (s : ContractState) (env : Env) (info : MessageInfo)
    (curve : CurveType) (q : Querier) (amount : Nat) :
    Except ContractError (ContractState × Response) := do
  let invest := s.invest
  if amount < invest.min_withdrawal then
    throw (.unbondTooSmall invest.min_withdrawal invest.bond_denom)
  let tax := decMul amount invest.exit_tax
  let (s, _) ← execute_burn s info amount
  let s ←
    if 0 < tax then do
      let sub_info : MessageInfo := { sender := env.contract_address, funds := [] }
      let (s, _) ← execute_mint s sub_info invest.owner tax
      pure s
    else
      pure s
  let bonded ← get_bonded q.delegations
  let _ ← assert_bonds s.curve_state bonded
  let amount_minus_tax ← checkedSub amount tax
  let supply' ← checkedSub s.curve_state.supply amount_minus_tax
  let new_reserve := reserve_for curve s.curve_state.decimals supply'
  let unbonded ← checkedSub s.curve_state.reserve new_reserve
  let cs := { s.curve_state with
    supply := supply',
    reserve := new_reserve,
    claims := s.curve_state.claims + unbonded }
  let s := { s with curve_state := cs }
  let s := create_claim s info.sender unbonded (env.time + invest.unbonding_period)
  let res : Response :=
    { messages :=
        [.stakingUndelegate invest.validator ⟨invest.bond_denom, unbonded⟩],
      attributes := [("action", "unbond"), ("to", info.sender),
        ("unbonded", toString unbonded), ("burnt", toString amount)] }
  pure (s, res)

/-- claim (src/staking.rs:209): fails when the contract's liquid balance
is below the withdrawal floor, releases the caller's matured claims
bounded by that balance, fails when nothing is released, lowers the
pending-claims counter and transfers the released amount. -/
def claim (s : ContractState) (env : Env) (info : MessageInfo) (q : Querier) :
    Except ContractError (ContractState × Response) := do
  let invest := s.invest
  if q.balance < invest.min_withdrawal then
    throw .balanceTooSmall
  let (to_send, residual) := claim_tokens (queueOf s info.sender) env.time q.balance
  if to_send = 0 then
    throw .nothingToClaim
  let claims' ← checkedSub s.curve_state.claims to_send
  let s := { s with
    curve_state := { s.curve_state with claims := claims' },
    claims_queue :=
      s.claims_queue.filter (fun p => p.1 ≠ info.sender)
        ++ residual.map (fun c => (info.sender, c)) }
  let res : Response :=
    { messages := [.bankSend info.sender ⟨invest.bond_denom, to_send⟩],
      attributes := [("action", "claim"), ("from", info.sender),
        ("amount", toString to_send)] }
  pure (s, res)

/-- reinvest (src/staking.rs:249): withdraws pending rewards and issues a
self-callback to bond_all_tokens; no state change of its own. -/
def reinvest (s : ContractState) (_env : Env) (_info : MessageInfo) :
    Except ContractError (ContractState × Response) :=
  .ok (s, { messages := [.withdrawReward s.invest.validator, .callBondAllTokens],
            attributes := [] })

/-- bond_all_tokens, the source's `_bond_all_tokens` (src/staking.rs:267):
callable only by the contract itself; deducts pending claims from the
liquid balance, treats a result below `min_withdrawal` as a no-op success
returning `Response::default()`, and otherwise adds the whole remaining
balance (claims already deducted, `min_withdrawal` not subtracted) to the
reserve and delegates it. -/
def bond_all_tokens (s : ContractState) (env : Env) (info : MessageInfo)
    (q : Querier) : Except ContractError (ContractState × Response) := do
  if info.sender ≠ env.contract_address then
    throw .unauthorized
  let invest := s.invest
  if q.balance < s.curve_state.claims then
    pure (s, Response.default)
  else
    let amt := q.balance - s.curve_state.claims
    if amt < invest.min_withdrawal then
      pure (s, Response.default)
    else
      let s' := { s with curve_state :=
        { s.curve_state with reserve := s.curve_state.reserve + amt } }
      let res : Response :=
        { messages := [.stakingDelegate invest.validator ⟨invest.bond_denom, amt⟩],
          attributes := [("action", "reinvest"), ("bonded", toString amt)] }
      pure (s', res)

/-! ## Delegated sell, instantiation and operation sequences
(src/bonding.rs:160, src/contract.rs:36) -/

/-- Allowance lookup for an owner/spender pair, `0` if unset. -/
def getAllow : List ((String × String) × Nat) → String → String → Nat
  | [], _, _ => 0
  | (k, w) :: t, o, sp => if k = (o, sp) then w else getAllow t o sp

/-- Allowance write for an owner/spender pair. -/
def setAllow : List ((String × String) × Nat) → String → String → Nat →
    List ((String × String) × Nat)
  | [], o, sp, v => [((o, sp), v)]
  | (k, w) :: t, o, sp, v =>
      if k = (o, sp) then ((o, sp), v) :: t else (k, w) :: setAllow t o sp v

/-- Modelled from the spec: `cw20_base::allowances::deduct_allowance`
(not under src/) — the delegated sell "must first deduct the allowance,
failing with an allowance-insufficient error if absent/expired/too
small".  Expiry is part of the excluded standard-ledger surface and is
not modelled. -/
def deduct_allowance (s : ContractState) (owner spender : String)
    (amount : Nat) : Except ContractError ContractState :=
  let cur := getAllow s.allowances owner spender
  if amount ≤ cur then
    .ok { s with allowances := setAllow s.allowances owner spender (cur - amount) }
  else
    .error .noAllowance

/-- execute_sell_from (src/bonding.rs:160): the delegated sell — deducts
the spender's allowance, then performs the shared sell logic burning from
the owner with the spender as receiver. -/
def execute_sell_from (s : ContractState) (info : MessageInfo)
    (curve : CurveType) (owner : String) (amount : Nat) :
    Except ContractError (ContractState × Response) := do
  let _ ← nonpayable info
  let s ← deduct_allowance s owner info.sender amount
  let owner_info : MessageInfo := { sender := owner, funds := info.funds }
  let (s', res) ← do_sell s owner_info curve info.sender amount
  pure (s', { res with attributes :=
    res.attributes ++ [("action", "burn_from"), ("by", info.sender)] })

/-- Creation-time configuration relevant to the engines
(src/msg.rs:26, staking params src/msg.rs:11). -/
structure InstantiateMsg where
  decimals : Nat
  reserve_denom : String
  reserve_decimals : Nat
  curve_type : CurveType
  validator : String
  unbonding_period : Nat
  exit_tax : Nat
  min_withdrawal : Nat
deriving Repr, DecidableEq

/-- instantiate (src/contract.rs:36): rejects attached funds and an
unregistered validator, then stores the token info (minter fixed to the
contract itself, no cap), the investment info (bond denomination from the
chain), the zeroed curve state and the curve type. -/
def instantiate (env : Env) (info : MessageInfo) (msg : InstantiateMsg)
    (validators : List String) (bonded_denom : String) :
    Except ContractError ContractState := do
  let _ ← nonpayable info
  if ¬ validators.contains msg.validator then
    throw (.notInValidatorSet msg.validator)
  let s : ContractState :=
    { balances := [],
      token_info :=
        { total_supply := 0, minter := env.contract_address, cap := none },
      curve_state :=
        { reserve := 0, supply := 0, reserve_denom := msg.reserve_denom,
          decimals := ⟨msg.decimals, msg.reserve_decimals⟩, claims := 0 },
      invest :=
        { owner := info.sender, bond_denom := bonded_denom,
          unbonding_period := msg.unbonding_period, exit_tax := msg.exit_tax,
          validator := msg.validator, min_withdrawal := msg.min_withdrawal },
      claims_queue := [],
      allowances := [] }
  pure s

/-- One buy/sell operation of the Buy/Sell Engine, with its caller and
attached funds. -/
inductive TradeOp where
  | buy (sender : String) (funds : List Coin)
  | sell (sender : String) (funds : List Coin) (amount : Nat)
  | sellFrom (spender : String) (funds : List Coin) (owner : String) (amount : Nat)
deriving Repr, DecidableEq

/-- Dispatch of one trade operation (src/contract.rs:127-134), keeping
only the resulting state. -/
def runTrade (curve : CurveType) (env : Env) (s : ContractState) :
    TradeOp → Except ContractError ContractState
  | .buy sender funds =>
      (execute_buy s env ⟨sender, funds⟩ curve).map (fun p => p.1)
  | .sell sender funds amount =>
      (execute_sell s ⟨sender, funds⟩ curve amount).map (fun p => p.1)
  | .sellFrom spender funds owner amount =>
      (execute_sell_from s ⟨spender, funds⟩ curve owner amount).map (fun p => p.1)

/-- Sequential execution of trade operations; any failure aborts the
whole run (each operation is an all-or-nothing host transaction). -/
def runTrades (curve : CurveType) (env : Env) :
    List TradeOp → ContractState → Except ContractError ContractState
  | [], s => .ok s
  | op :: rest, s => do
      let s' ← runTrade curve env s op
      runTrades curve env rest s'

/-- One operation touching the curve supply and the token ledger:
buy, sell (self or delegated), bond or unbond, each with the oracle data
its invocation observes. -/
inductive StOp where
  | trade (op : TradeOp)
  | bond (sender : String) (funds : List Coin) (q : Querier)
  | unbond (sender : String) (amount : Nat) (q : Querier)
deriving Repr, DecidableEq

/-- Dispatch of one supply-relevant operation (src/contract.rs:127-138). -/
def runStOp (curve : CurveType) (env : Env) (s : ContractState) :
    StOp → Except ContractError ContractState
  | .trade op => runTrade curve env s op
  | .bond sender funds q =>
      (bond s env ⟨sender, funds⟩ curve q).map (fun p => p.1)
  | .unbond sender amount q =>
      (unbond s env ⟨sender, []⟩ curve q amount).map (fun p => p.1)

/-- Sequential execution of supply-relevant operations. -/
def runStOps (curve : CurveType) (env : Env) :
    List StOp → ContractState → Except ContractError ContractState
  | [], s => .ok s
  | op :: rest, s => do
      let s' ← runStOp curve env s op
      runStOps curve env rest s'


/-! ## Concrete scenario data used by closed theorems -/

/-- Amount carried by a response consisting of a single bank transfer;
`0` for any other response shape. -/
def sentAmount (r : Response) : Nat :=
  match r.messages with
  | [.bankSend _ c] => c.amount
  | _ => 0

/-- Amount carried by a response consisting of a single delegate
effect; `0` for any other response shape. -/
def delegatedAmount (r : Response) : Nat :=
  match r.messages with
  | [.stakingDelegate _ c] => c.amount
  | _ => 0

/-- Environment of the concrete scenarios: the contract's own address
and logical time 100. -/
def envW : Env := { contract_address := "cosmos2contract", time := 100 }

/-- Investment parameters of the concrete scenarios: 10% exit tax
(numerator over 10^18), unbonding period 1000, withdrawal floor 50. -/
def investW : InvestmentInfo :=
  { owner := "creator", bond_denom := "ustake", unbonding_period := 1000,
    exit_tax := 10 ^ 17, validator := "valid8r", min_withdrawal := 50 }

/-- Instantiation message of the concrete staking scenarios: identity
(constant value 1, scale 0) curve, six decimal places on both sides. -/
def msgW : InstantiateMsg :=
  { decimals := 6, reserve_denom := "ustake", reserve_decimals := 6,
    curve_type := .constant 1 0, validator := "valid8r",
    unbonding_period := 1000, exit_tax := 10 ^ 17, min_withdrawal := 50 }

/-- The freshly instantiated state of the concrete staking scenarios. -/
def stateW0 : ContractState :=
  { balances := [],
    token_info := { total_supply := 0, minter := "cosmos2contract", cap := none },
    curve_state := ⟨0, 0, "ustake", ⟨6, 6⟩, 0⟩,
    invest := investW, claims_queue := [], allowances := [] }

/-- State after bob bonded 1000 with the identity curve: bob holds 1000
derivative tokens, reserve and supply are 1000. -/
def stateW1 : ContractState :=
  { stateW0 with
    balances := [("bob", 1000)],
    token_info := { stateW0.token_info with total_supply := 1000 },
    curve_state := { stateW0.curve_state with reserve := 1000, supply := 1000 } }

/-- stateW1 after reinvestment raised the reserve to 1500 while the
supply stayed 1000 (the 1.5 nominal-value state of the spec scenario). -/
def stateW2 : ContractState :=
  { stateW1 with
    curve_state := { stateW1.curve_state with reserve := 1500 } }

/-- stateW1 with 30 units already earmarked by pending claims. -/
def stateWclaims : ContractState :=
  { stateW1 with
    curve_state := { stateW1.curve_state with claims := 30 } }

/-- A curve state for the buy/sell counterexample: a constant curve of
value 3 (scale 0, no decimal normalization), two units of truncation
surplus in the reserve (reserve 5, supply 1, worth only 3). It is
reachable from the instantiated zero state by a single Buy of 5. -/
def stateWbuy : ContractState :=
  { balances := [("bob", 1)],
    token_info := { total_supply := 1, minter := "cosmos2contract", cap := none },
    curve_state := ⟨5, 1, "satoshi", ⟨0, 0⟩, 0⟩,
    invest := investW, claims_queue := [], allowances := [] }

/-- Environment at logical time 1200, after the scenario claim matured. -/
def envT : Env := { contract_address := "cosmos2contract", time := 1200 }

/-- stateW1 with one pending claim of 540 for bob maturing at 1100. -/
def stateWq : ContractState :=
  { stateW1 with
    curve_state := { stateW1.curve_state with claims := 540 },
    claims_queue := [("bob", ⟨540, 1100⟩)] }

/-- stateWq after bob redeemed the matured claim in full. -/
def stateWqAfter : ContractState :=
  { stateWq with
    curve_state := { stateWq.curve_state with claims := 0 },
    claims_queue := [] }

/-- Response of the successful scenario claim redemption. -/
def respQ : Response :=
  { messages := [.bankSend "bob" ⟨"ustake", 540⟩],
    attributes := [("action", "claim"), ("from", "bob"),
      ("amount", toString 540)] }

/-- State after bob unbonds 600 from stateW1 at 10% exit tax: bob keeps
400, the owner got the 60 tax, supply and reserve drop to 460, and a
claim of 540 matures at time 1100. -/
def stateWu : ContractState :=
  { balances := [("bob", 400), ("creator", 60)],
    token_info := { total_supply := 460, minter := "cosmos2contract", cap := none },
    curve_state := ⟨460, 460, "ustake", ⟨6, 6⟩, 540⟩,
    invest := investW, claims_queue := [("bob", ⟨540, 1100⟩)], allowances := [] }

/-- Response of the scenario unbond: an undelegate effect for 540. -/
def respU : Response :=
  { messages := [.stakingUndelegate "valid8r" ⟨"ustake", 540⟩],
    attributes := [("action", "unbond"), ("to", "bob"),
      ("unbonded", toString 540), ("burnt", toString 600)] }

/-- Result of a successful Buy: reserve grown by the payment, supply
recomputed from the curve, the difference minted to the payer
(src/bonding.rs:101-137). -/
def buyResult (s : ContractState) (payer : String) (curve : CurveType)
    (p : Nat) : ContractState × Response :=
  let ns := supply_for curve s.curve_state.decimals (s.curve_state.reserve + p)
  let minted := ns - s.curve_state.supply
  let cs := { s.curve_state with reserve := s.curve_state.reserve + p, supply := ns }
  let ti := { s.token_info with total_supply := s.token_info.total_supply + minted }
  let bs := setBal s.balances payer (getBal s.balances payer + minted)
  let s' := { s with curve_state := cs, token_info := ti, balances := bs }
  let msgs : List CosmosMsg := []
  let attrs := [("action", "buy"), ("from", payer),
    ("reserve", toString p), ("supply", toString minted)]
  (s', ⟨msgs, attrs⟩)

/-- Instantiated state with a constant curve of value 3 and no decimal
normalization; a payment of 1 then buys 1/3 of a token, truncated to 0. -/
def stateWzero3 : ContractState :=
  { balances := [],
    token_info := { total_supply := 0, minter := "cosmos2contract", cap := none },
    curve_state := ⟨0, 0, "satoshi", ⟨0, 0⟩, 0⟩,
    invest := investW, claims_queue := [], allowances := [] }

/-- A state whose cached supply 10 exceeds the curve supply of its
reserve, so that a small Buy makes the minted difference negative. -/
def stateWsup10 : ContractState :=
  { balances := [("bob", 10)],
    token_info := { total_supply := 10, minter := "cosmos2contract", cap := none },
    curve_state := ⟨0, 10, "satoshi", ⟨0, 0⟩, 0⟩,
    invest := investW, claims_queue := [], allowances := [] }

/-- State after buying 100 and selling 40 at the identity curve from
the instantiated state: bob holds 60, total supply 60, reserve 60. -/
def stateWts : ContractState :=
  { balances := [("bob", 60)],
    token_info := { total_supply := 60, minter := "cosmos2contract", cap := none },
    curve_state := ⟨60, 60, "ustake", ⟨6, 6⟩, 0⟩,
    invest := investW, claims_queue := [], allowances := [] }

/-- State after buying 5 and selling all 5 minted tokens back at the
identity curve from the zeroed constant-curve state. -/
def stateWsold : ContractState :=
  { balances := [("alice", 0)],
    token_info := { total_supply := 0, minter := "cosmos2contract", cap := none },
    curve_state := ⟨0, 0, "satoshi", ⟨0, 0⟩, 0⟩,
    invest := investW, claims_queue := [], allowances := [] }

/-- Response of selling those 5 tokens: a transfer of 5 back to alice. -/
def respSold : Response :=
  { messages := [.bankSend "alice" ⟨"satoshi", 5⟩],
    attributes := [("from", "alice"), ("supply", toString 5),
      ("reserve", toString 5), ("action", "burn")] }

/-! ## Theorems -/

/-- Reduction of `throw` in the `Except` monad to its constructor. -/
@[simp] theorem exceptThrow {e : ContractError} {a : Type} :
    (throw e : Except ContractError a) = .error e := rfl

/-- Reduction of `pure` in the `Except` monad to its constructor. -/
@[simp] theorem exceptPure {a : Type} (x : a) :
    (pure x : Except ContractError a) = .ok x := rfl

/-- Bind on a success value in the `Except` monad. -/
@[simp] theorem exceptBindOk {a b : Type} (x : a)
    (f : a → Except ContractError b) : (Except.ok x >>= f) = f x := rfl

/-- Bind on an error value in the `Except` monad. -/
@[simp] theorem exceptBindError {a b : Type} (e : ContractError)
    (f : a → Except ContractError b) :
    ((Except.error e : Except ContractError a) >>= f) = .error e := rfl

/-- Map over a success value in the `Except` monad. -/
@[simp] theorem exceptMapOk {a b : Type} (x : a) (f : a → b) :
    (f <$> (Except.ok x : Except ContractError a)) = .ok (f x) := rfl

/-- Map over an error value in the `Except` monad. -/
@[simp] theorem exceptMapError {a b : Type} (e : ContractError) (f : a → b) :
    (f <$> (Except.error e : Except ContractError a)) = .error e := rfl

/-- Success values of `checkedSub`. -/
theorem checkedSub_ok {a b : Nat} (h : b ≤ a) :
    checkedSub a b = .ok (a - b) := by simp [checkedSub, h]

/-- Error values of `checkedSub`. -/
theorem checkedSub_error {a b : Nat} (h : a < b) :
    checkedSub a b = .error (.stdOverflowSub a b) := by
  simp [checkedSub]
  omega

/-- Characterization of a successful `checkedSub`. -/
theorem checkedSub_eq_ok {a b c : Nat} :
    checkedSub a b = .ok c ↔ b ≤ a ∧ c = a - b := by
  unfold checkedSub
  split
  · simp_all
    omega
  · simp_all

/-- C9: unbonding an amount strictly below `min_withdrawal` always fails
with the under-minimum error (`UnbondTooSmall`); since every failed
operation is rolled back whole by the host (modelled by returning only
the error, no state), no part of the state is changed. -/
theorem unbond_below_min_rejected (s : ContractState) (env : Env)
    (info : MessageInfo) (curve : CurveType) (q : Querier) (amount : Nat)
    (h : amount < s.invest.min_withdrawal) :
    unbond s env info curve q amount =
      .error (.unbondTooSmall s.invest.min_withdrawal s.invest.bond_denom) := by
  simp [unbond, h]

/-- Witness for C9: unbonding 10 against a floor of 50 fails with
`UnbondTooSmall 50 "ustake"`. -/
theorem unbond_below_min_rejected_witness :
    unbond stateW1 envW ⟨"bob", []⟩ (.constant 1 0) ⟨[⟨"ustake", 1000⟩], 0⟩ 10 =
      .error (.unbondTooSmall 50 "ustake") :=
  unbond_below_min_rejected stateW1 envW ⟨"bob", []⟩ (.constant 1 0)
    ⟨[⟨"ustake", 1000⟩], 0⟩ 10 (by decide)

/-- C2 (amended): for the internal bond-all-tokens operation invoked by
the contract's own identity, the liquid balance minus pending claims
minus `min_withdrawal` is computed only as an underflow floor check: if
it would underflow the call succeeds as a no-op with zero external
effects, returning the bare default response (which carries no "skipped"
marker of any kind); otherwise the reserve grows by `balance - claims`
(not `balance - claims - min_withdrawal`) and a delegate effect is
emitted for exactly `balance - claims`.  Any other caller is rejected as
`Unauthorized`. -/
theorem bond_all_tokens_floor_spec (s : ContractState) (env : Env)
    (info : MessageInfo) (q : Querier) :
    (info.sender ≠ env.contract_address →
      bond_all_tokens s env info q = .error .unauthorized) ∧
    (info.sender = env.contract_address →
      q.balance < s.curve_state.claims + s.invest.min_withdrawal →
      bond_all_tokens s env info q = .ok (s, Response.default)) ∧
    (info.sender = env.contract_address →
      s.curve_state.claims + s.invest.min_withdrawal ≤ q.balance →
      bond_all_tokens s env info q =
        .ok ({ s with curve_state := { s.curve_state with
                reserve := s.curve_state.reserve + (q.balance - s.curve_state.claims) } },
          { messages := [.stakingDelegate s.invest.validator
              ⟨s.invest.bond_denom, q.balance - s.curve_state.claims⟩],
            attributes := [("action", "reinvest"),
              ("bonded", toString (q.balance - s.curve_state.claims))] })) := by
  refine ⟨fun h => ?_, fun h hlt => ?_, fun h hge => ?_⟩
  · simp [bond_all_tokens, h]
  · rcases Nat.lt_or_ge q.balance s.curve_state.claims with hc | hc
    · simp [bond_all_tokens, h, hc]
    · have hmin : q.balance - s.curve_state.claims < s.invest.min_withdrawal := by omega
      simp [bond_all_tokens, h, Nat.not_lt.mpr hc, hmin]
  · have hc : ¬ q.balance < s.curve_state.claims := by omega
    have hmin : ¬ q.balance - s.curve_state.claims < s.invest.min_withdrawal := by omega
    simp [bond_all_tokens, h, hc, hmin]

/-- Counterexample for C2: with liquid balance 100, pending claims 30
and `min_withdrawal` 50, the claimed leftover `100 - 30 - 50 = 20` is
not what gets delegated and added to the reserve: the code delegates
`100 - 30 = 70` (reserve 1000 grows to 1070, not 1020).  Moreover the
claimed no-op case (balance 40 < 30 + 50) returns the bare
`Response::default()` with an empty message and attribute list — there is
no recognizable "skipped" outcome reported. -/
theorem bond_all_tokens_claim_refuted :
    ((bond_all_tokens stateWclaims envW ⟨"cosmos2contract", []⟩ ⟨[], 100⟩).toOption.map
        (fun p => (delegatedAmount p.2, p.1.curve_state.reserve))
      = some (70, 1070)) ∧
    (100 - (30 + 50) = 20) ∧ (70 : Nat) ≠ 20 ∧
    (bond_all_tokens stateWclaims envW ⟨"cosmos2contract", []⟩ ⟨[], 40⟩
      = .ok (stateWclaims, Response.default)) ∧
    Response.default.attributes = [] := by
  refine ⟨?_, by decide, by decide, ?_, rfl⟩
  · rfl
  · rfl

/-- Witness for C2 (amended): at concrete inputs — a stranger is
rejected as Unauthorized; balance 40 with claims 30 and floor 50 is a
no-op returning the default response; balance 100 delegates 70. -/
theorem bond_all_tokens_floor_spec_witness :
    (bond_all_tokens stateWclaims envW ⟨"alice", []⟩ ⟨[], 100⟩
      = .error .unauthorized) ∧
    (bond_all_tokens stateWclaims envW ⟨"cosmos2contract", []⟩ ⟨[], 40⟩
      = .ok (stateWclaims, Response.default)) ∧
    (bond_all_tokens stateWclaims envW ⟨"cosmos2contract", []⟩ ⟨[], 100⟩
      = .ok ({ stateWclaims with curve_state := { stateWclaims.curve_state with
              reserve := stateWclaims.curve_state.reserve + (100 - stateWclaims.curve_state.claims) } },
          { messages := [.stakingDelegate stateWclaims.invest.validator
              ⟨stateWclaims.invest.bond_denom, 100 - stateWclaims.curve_state.claims⟩],
            attributes := [("action", "reinvest"),
              ("bonded", toString (100 - stateWclaims.curve_state.claims))] })) :=
  ⟨(bond_all_tokens_floor_spec stateWclaims envW ⟨"alice", []⟩ ⟨[], 100⟩).1 (by decide),
    (bond_all_tokens_floor_spec stateWclaims envW ⟨"cosmos2contract", []⟩ ⟨[], 40⟩).2.1
      rfl (by decide),
    (bond_all_tokens_floor_spec stateWclaims envW ⟨"cosmos2contract", []⟩ ⟨[], 100⟩).2.2
      rfl (by decide)⟩

/-- C1: evaluation of the staking scenario against the code.  With the
identity curve (constant value 1, equal decimals), bonding 1000 at the
zeroed instantiated state does mint 1000 (first half of the claim), and
reinvestment raises the reserve/bonded total to 1500 while the supply
stays 1000 (nominal value 1.5); but a new bonder depositing 3000 then
receives `supply_for(1500 + 3000) - 1000 = 3500` derivative tokens, not
the `3000 / 1.5 = 2000` demanded by the claim, the spec scenario and the
repository's own test `rebonding_changes_pricing`: `bond` prices by the
configured curve (the code of `execute_buy`), the ratio-based pricing
survives only as commented-out code (src/staking.rs:75-84). -/
theorem bond_mints_by_curve_not_ratio :
    (instantiate envW ⟨"creator", []⟩ msgW ["valid8r"] "ustake" = .ok stateW0) ∧
    ((bond stateW0 envW ⟨"bob", [⟨"ustake", 1000⟩]⟩ (.constant 1 0) ⟨[], 0⟩).toOption.map
        (fun p => p.1) = some stateW1) ∧
    (getBal stateW1.balances "bob" = 1000 ∧
      stateW1.curve_state.reserve = 1000 ∧ stateW1.curve_state.supply = 1000) ∧
    ((bond_all_tokens stateW1 envW ⟨"cosmos2contract", []⟩
        ⟨[⟨"ustake", 1000⟩], 500⟩).toOption.map (fun p => p.1) = some stateW2) ∧
    (stateW2.curve_state.reserve = 1500 ∧ stateW2.curve_state.supply = 1000) ∧
    ((bond stateW2 envW ⟨"alice", [⟨"ustake", 3000⟩]⟩ (.constant 1 0)
        ⟨[⟨"ustake", 1500⟩], 0⟩).toOption.map
        (fun p => getBal p.1.balances "alice") = some 3500) ∧
    (3500 : Nat) ≠ 2000 := by
  refine ⟨rfl, rfl, by decide, rfl, by decide, rfl, by decide⟩

/-- Released total of the modelled claims-queue release: the lesser of
the matured sum and the cap. -/
theorem claim_tokens_fst (queue : List ClaimEntry) (now cap : Nat) :
    (claim_tokens queue now cap).1 = min (maturedSum queue now) cap := by
  simp [claim_tokens, maturedSum, apply_ite Prod.fst]

/-- C4: every Claim invocation fails with `BalanceTooSmall` when the
contract's liquid balance of the bond denomination is below
`min_withdrawal`; otherwise it releases exactly the lesser of the sum of
the caller's matured claim amounts and the liquid balance, failing with
`NothingToClaim` when that is zero; on success `CurveState.claims`
decreases by exactly the released amount and a transfer effect for that
amount is emitted to the caller. -/
theorem claim_release_spec (s : ContractState) (env : Env)
    (info : MessageInfo) (q : Querier) :
    (q.balance < s.invest.min_withdrawal →
      claim s env info q = .error .balanceTooSmall) ∧
    (s.invest.min_withdrawal ≤ q.balance →
      min (maturedSum (queueOf s info.sender) env.time) q.balance = 0 →
      claim s env info q = .error .nothingToClaim) ∧
    (∀ s' resp, claim s env info q = .ok (s', resp) →
      0 < min (maturedSum (queueOf s info.sender) env.time) q.balance ∧
      min (maturedSum (queueOf s info.sender) env.time) q.balance
        ≤ s.curve_state.claims ∧
      s'.curve_state.claims
          + min (maturedSum (queueOf s info.sender) env.time) q.balance
        = s.curve_state.claims ∧
      resp.messages = [.bankSend info.sender ⟨s.invest.bond_denom,
        min (maturedSum (queueOf s info.sender) env.time) q.balance⟩]) := by
  have hfst := claim_tokens_fst (queueOf s info.sender) env.time q.balance
  rcases hct : claim_tokens (queueOf s info.sender) env.time q.balance with ⟨t, res⟩
  rw [hct] at hfst
  simp only at hfst
  refine ⟨fun h => ?_, fun h h0 => ?_, fun s' resp h => ?_⟩
  · simp [claim, h]
  · rw [← hfst] at h0
    simp [claim, Nat.not_lt.mpr h, hct, h0]
  · rw [← hfst]
    revert h
    simp only [claim, hct]
    split
    · intro h
      cases h
    · split
      · intro h
        cases h
      · rename_i ht0
        simp only [checkedSub]
        split
        · intro h
          cases h
          refine ⟨by omega, by omega, by simp; omega, rfl⟩
        · intro h
          cases h

/-- Witness for C4: balance 10 below the floor 50 fails with
`BalanceTooSmall`; at time 100 the claim maturing at 1100 is not matured,
so nothing is released and the call fails with `NothingToClaim`; at time
1200 with balance 800, exactly `min(540, 800) = 540` is released, the
claims counter drops from 540 to 0, and a transfer of 540 goes to bob. -/
theorem claim_release_spec_witness :
    (claim stateWq envT ⟨"bob", []⟩ ⟨[], 10⟩ = .error .balanceTooSmall) ∧
    (claim stateWq envW ⟨"bob", []⟩ ⟨[], 800⟩ = .error .nothingToClaim) ∧
    (0 < min (maturedSum (queueOf stateWq "bob") envT.time) 800 ∧
      min (maturedSum (queueOf stateWq "bob") envT.time) 800
        ≤ stateWq.curve_state.claims ∧
      stateWqAfter.curve_state.claims
          + min (maturedSum (queueOf stateWq "bob") envT.time) 800
        = stateWq.curve_state.claims ∧
      respQ.messages = [.bankSend "bob" ⟨stateWq.invest.bond_denom,
        min (maturedSum (queueOf stateWq "bob") envT.time) 800⟩]) :=
  ⟨(claim_release_spec stateWq envT ⟨"bob", []⟩ ⟨[], 10⟩).1 (by decide),
    (claim_release_spec stateWq envW ⟨"bob", []⟩ ⟨[], 800⟩).2.1 (by decide) (by decide),
    (claim_release_spec stateWq envT ⟨"bob", []⟩ ⟨[], 800⟩).2.2 stateWqAfter respQ
      rfl⟩

/-- Bind in the `Except` monad succeeds exactly when both steps do. -/
theorem except_bind_ok_iff {a b : Type} {x : Except ContractError a}
    {f : a → Except ContractError b} {y : b} :
    x >>= f = .ok y ↔ ∃ v, x = .ok v ∧ f v = .ok y := by
  cases x <;> simp

/-- Success shape of execute_burn: the amount is positive, covered by
the owner's balance and the total supply, and exactly deducted from
both; nothing else changes. -/
theorem execute_burn_ok {s : ContractState} {info : MessageInfo}
    {amount : Nat} {s' : ContractState} {resp : Response}
    (h : execute_burn s info amount = .ok (s', resp)) :
    0 < amount ∧ amount ≤ getBal s.balances info.sender ∧
    amount ≤ s.token_info.total_supply ∧
    s' = { s with
      balances := setBal s.balances info.sender
        (getBal s.balances info.sender - amount),
      token_info := { s.token_info with
        total_supply := s.token_info.total_supply - amount } } := by
  unfold execute_burn checkedSub at h
  by_cases h0 : amount = 0
  · simp [h0] at h
  · by_cases hb : amount ≤ getBal s.balances info.sender
    · by_cases ht : amount ≤ s.token_info.total_supply
      · simp only [h0, hb, ht, if_true, if_false, ite_true, ite_false,
          exceptThrow, exceptPure, exceptBindOk, exceptBindError, if_neg, if_pos,
          Except.ok.injEq, Prod.mk.injEq] at h
        obtain ⟨hs, _⟩ := h
        exact ⟨by omega, hb, ht, hs.symm⟩
      · simp [h0, hb, ht] at h
    · simp [h0, hb] at h

/-- Success shape of execute_mint: the amount is positive, the sender is
the fixed minter, and the amount is added to the total supply and the
recipient's balance; nothing else changes. -/
theorem execute_mint_ok {s : ContractState} {info : MessageInfo}
    {recipient : String} {amount : Nat} {s' : ContractState} {resp : Response}
    (h : execute_mint s info recipient amount = .ok (s', resp)) :
    0 < amount ∧ s.token_info.minter = info.sender ∧
    s' = { s with
      token_info := { s.token_info with
        total_supply := s.token_info.total_supply + amount },
      balances := setBal s.balances recipient
        (getBal s.balances recipient + amount) } := by
  unfold execute_mint at h
  by_cases h0 : amount = 0
  · simp [h0] at h
  · by_cases hm : s.token_info.minter = info.sender
    · rcases hcap : s.token_info.cap with _ | limit
      · simp only [h0, hm, hcap, ite_true, ite_false, if_neg, if_pos,
          ne_eq, not_true_eq_false, not_false_eq_true,
          exceptThrow, exceptPure, exceptBindOk, exceptBindError,
          Except.ok.injEq, Prod.mk.injEq] at h
        obtain ⟨hs, _⟩ := h
        refine ⟨by omega, hm, ?_⟩
        rw [← hs]
        simp [hm, hcap]
      · by_cases hlim : limit < s.token_info.total_supply + amount
        · simp [h0, hm, hcap, hlim] at h
        · simp only [h0, hm, hcap, hlim, ite_true, ite_false, if_neg, if_pos,
            ne_eq, not_true_eq_false, not_false_eq_true,
            exceptThrow, exceptPure, exceptBindOk, exceptBindError,
            Except.ok.injEq, Prod.mk.injEq] at h
          obtain ⟨hs, _⟩ := h
          refine ⟨by omega, hm, ?_⟩
          rw [← hs]
          simp [hm, hcap]
    · simp [h0, hm] at h

/-- C3: for every Unbond that succeeds, the tax equals
`amount * exit_tax` with truncating fixed-point multiplication and is
covered by the amount; `amount` is burnt from the caller's ledger
balance (the debit is covered); if the tax is positive exactly that many
derivative tokens are re-minted to the owner; the curve supply drops by
`amount - tax`; the reserve becomes `reserve_for(supply - (amount - tax))`
and the queued claim amount is exactly the released reserve difference,
computed by the curve exactly as Sell computes it; the claim matures at
the current time plus `unbonding_period`; `CurveState.claims` grows by
the claim amount; and an undelegate effect is emitted for it. -/
theorem unbond_success_spec (s : ContractState) (env : Env)
    (info : MessageInfo) (curve : CurveType) (q : Querier) (amount : Nat)
    (s' : ContractState) (resp : Response)
    (h : unbond s env info curve q amount = .ok (s', resp)) :
    decMul amount s.invest.exit_tax = amount * s.invest.exit_tax / 10 ^ 18 ∧
    decMul amount s.invest.exit_tax ≤ amount ∧
    amount ≤ getBal s.balances info.sender ∧
    s'.balances =
      (if 0 < decMul amount s.invest.exit_tax then
        setBal (setBal s.balances info.sender
            (getBal s.balances info.sender - amount))
          s.invest.owner
          (getBal (setBal s.balances info.sender
              (getBal s.balances info.sender - amount)) s.invest.owner
            + decMul amount s.invest.exit_tax)
      else
        setBal s.balances info.sender (getBal s.balances info.sender - amount)) ∧
    s'.curve_state.supply =
      s.curve_state.supply - (amount - decMul amount s.invest.exit_tax) ∧
    s'.curve_state.reserve = reserve_for curve s.curve_state.decimals
      (s.curve_state.supply - (amount - decMul amount s.invest.exit_tax)) ∧
    s'.curve_state.reserve ≤ s.curve_state.reserve ∧
    s'.curve_state.claims = s.curve_state.claims
      + (s.curve_state.reserve - s'.curve_state.reserve) ∧
    s'.claims_queue = s.claims_queue ++ [(info.sender,
      ⟨s.curve_state.reserve - s'.curve_state.reserve,
        env.time + s.invest.unbonding_period⟩)] ∧
    resp.messages = [.stakingUndelegate s.invest.validator
      ⟨s.invest.bond_denom, s.curve_state.reserve - s'.curve_state.reserve⟩] := by
  unfold unbond at h
  simp only [exceptThrow, exceptPure, exceptBindOk, exceptBindError] at h
  split at h
  · simp at h
  · rename_i hmin
    simp only [except_bind_ok_iff] at h
    obtain ⟨⟨s1, r1⟩, hburn, h⟩ := h
    obtain ⟨hpos, hble, htle, hs1⟩ := execute_burn_ok hburn
    split at h
    · rename_i htax0
      simp only [exceptPure, exceptBindOk, except_bind_ok_iff] at h
      obtain ⟨⟨s2, r2⟩, hmint, h⟩ := h
      obtain ⟨hpos2, hmint2, hs2⟩ := execute_mint_ok hmint
      simp only [except_bind_ok_iff] at h
      obtain ⟨bonded, hbonded, h⟩ := h
      obtain ⟨u, hassert, h⟩ := h
      obtain ⟨amt, hamt, h⟩ := h
      rw [checkedSub_eq_ok] at hamt
      obtain ⟨htax, hamteq⟩ := hamt
      obtain ⟨sup', hsup, h⟩ := h
      rw [checkedSub_eq_ok] at hsup
      obtain ⟨hsuple, hsupeq⟩ := hsup
      obtain ⟨unb, hunb, h⟩ := h
      rw [checkedSub_eq_ok] at hunb
      obtain ⟨hunble, hunbeq⟩ := hunb
      subst hs1
      subst hs2
      subst hamteq
      subst hsupeq
      subst hunbeq
      simp only [exceptPure, Except.ok.injEq, Prod.mk.injEq] at h
      obtain ⟨hs', hresp⟩ := h
      subst hs'
      subst hresp
      refine ⟨rfl, htax, hble, ?_, ?_, ?_, ?_, ?_, ?_, ?_⟩
      · simp [create_claim, htax0]
      · simp [create_claim]
      · simp [create_claim]
      · simpa [create_claim] using hunble
      · simp [create_claim]
      · simp [create_claim]
      · simp [create_claim]
    · rename_i htax0
      simp only [exceptPure, exceptBindOk, except_bind_ok_iff] at h
      obtain ⟨bonded, hbonded, h⟩ := h
      obtain ⟨u, hassert, h⟩ := h
      obtain ⟨amt, hamt, h⟩ := h
      rw [checkedSub_eq_ok] at hamt
      obtain ⟨htax, hamteq⟩ := hamt
      obtain ⟨sup', hsup, h⟩ := h
      rw [checkedSub_eq_ok] at hsup
      obtain ⟨hsuple, hsupeq⟩ := hsup
      obtain ⟨unb, hunb, h⟩ := h
      rw [checkedSub_eq_ok] at hunb
      obtain ⟨hunble, hunbeq⟩ := hunb
      subst hs1
      subst hamteq
      subst hsupeq
      subst hunbeq
      simp only [exceptPure, Except.ok.injEq, Prod.mk.injEq] at h
      obtain ⟨hs', hresp⟩ := h
      subst hs'
      subst hresp
      refine ⟨rfl, htax, hble, ?_, ?_, ?_, ?_, ?_, ?_, ?_⟩
      · simp [create_claim, htax0]
      · simp [create_claim]
      · simp [create_claim]
      · simpa [create_claim] using hunble
      · simp [create_claim]
      · simp [create_claim]
      · simp [create_claim]

/-- Witness for C3: bob unbonds 600 from stateW1 (10% exit tax, identity
curve, bonded total 1000): the tax is 60, bob is debited 600, the owner
is credited 60, supply and reserve drop to 460, a claim of 540 maturing
at 1100 is queued, the claims counter grows by 540, and an undelegate
effect for 540 is emitted. -/
theorem unbond_success_spec_witness :
    decMul 600 stateW1.invest.exit_tax = 600 * stateW1.invest.exit_tax / 10 ^ 18 ∧
    decMul 600 stateW1.invest.exit_tax ≤ 600 ∧
    600 ≤ getBal stateW1.balances "bob" ∧
    stateWu.balances =
      (if 0 < decMul 600 stateW1.invest.exit_tax then
        setBal (setBal stateW1.balances "bob" (getBal stateW1.balances "bob" - 600))
          stateW1.invest.owner
          (getBal (setBal stateW1.balances "bob"
              (getBal stateW1.balances "bob" - 600)) stateW1.invest.owner
            + decMul 600 stateW1.invest.exit_tax)
      else
        setBal stateW1.balances "bob" (getBal stateW1.balances "bob" - 600)) ∧
    stateWu.curve_state.supply =
      stateW1.curve_state.supply - (600 - decMul 600 stateW1.invest.exit_tax) ∧
    stateWu.curve_state.reserve = reserve_for (.constant 1 0)
      stateW1.curve_state.decimals
      (stateW1.curve_state.supply - (600 - decMul 600 stateW1.invest.exit_tax)) ∧
    stateWu.curve_state.reserve ≤ stateW1.curve_state.reserve ∧
    stateWu.curve_state.claims = stateW1.curve_state.claims
      + (stateW1.curve_state.reserve - stateWu.curve_state.reserve) ∧
    stateWu.claims_queue = stateW1.claims_queue ++ [("bob",
      ⟨stateW1.curve_state.reserve - stateWu.curve_state.reserve,
        envW.time + stateW1.invest.unbonding_period⟩)] ∧
    respU.messages = [.stakingUndelegate stateW1.invest.validator
      ⟨stateW1.invest.bond_denom,
        stateW1.curve_state.reserve - stateWu.curve_state.reserve⟩] :=
  unbond_success_spec stateW1 envW ⟨"bob", []⟩ (.constant 1 0)
    ⟨[⟨"ustake", 1000⟩], 0⟩ 600 stateWu respU rfl

/-- C5 (amended): Buy fails with a payment error when no funds, a
zero-amount coin, a wrong denomination, or multiple denominations are
attached; with a valid single positive payment of the reserve
denomination it sets `new_reserve = reserve + payment` and
`new_supply = supply_for(new_reserve)`; it fails with an
overflow/underflow error when `new_supply - supply` is negative, fails
with the ledger's zero-amount error when that difference is zero, and
otherwise mints the difference to the payer and updates CurveState to
the new reserve and supply. -/
theorem execute_buy_spec (s : ContractState) (env : Env)
    (info : MessageInfo) (curve : CurveType) :
    (info.funds = [] → execute_buy s env info curve = .error .paymentNoFunds) ∧
    (∀ c, info.funds = [c] → c.amount = 0 →
      execute_buy s env info curve = .error .paymentNoFunds) ∧
    (∀ c, info.funds = [c] → 0 < c.amount →
      c.denom ≠ s.curve_state.reserve_denom →
      execute_buy s env info curve =
        .error (.paymentMissingDenom s.curve_state.reserve_denom)) ∧
    (∀ c d rest, info.funds = c :: d :: rest →
      execute_buy s env info curve = .error .paymentMultipleDenoms) ∧
    (∀ c, info.funds = [c] → 0 < c.amount →
      c.denom = s.curve_state.reserve_denom →
      supply_for curve s.curve_state.decimals (s.curve_state.reserve + c.amount)
          < s.curve_state.supply →
      execute_buy s env info curve = .error (.stdOverflowSub
        (supply_for curve s.curve_state.decimals (s.curve_state.reserve + c.amount))
        s.curve_state.supply)) ∧
    (∀ c, info.funds = [c] → 0 < c.amount →
      c.denom = s.curve_state.reserve_denom →
      supply_for curve s.curve_state.decimals (s.curve_state.reserve + c.amount)
        = s.curve_state.supply →
      execute_buy s env info curve = .error .invalidZeroAmount) ∧
    (∀ c, info.funds = [c] → 0 < c.amount →
      c.denom = s.curve_state.reserve_denom →
      s.token_info.minter = env.contract_address → s.token_info.cap = none →
      s.curve_state.supply
          < supply_for curve s.curve_state.decimals (s.curve_state.reserve + c.amount) →
      execute_buy s env info curve =
        .ok (buyResult s info.sender curve c.amount)) := by
  refine ⟨fun h => ?_, fun c hf h0 => ?_, fun c hf hpos hden => ?_,
    fun c d rest hf => ?_, fun c hf hpos hden hlt => ?_,
    fun c hf hpos hden heq => ?_, fun c hf hpos hden hm hcap hlt => ?_⟩
  · simp [execute_buy, must_pay, h]
  · simp [execute_buy, must_pay, hf, h0]
  · have h0 : ¬ c.amount = 0 := by omega
    simp [execute_buy, must_pay, hf, h0, hden]
  · simp [execute_buy, must_pay, hf]
  · have h0 : ¬ c.amount = 0 := by omega
    have hns : ¬ s.curve_state.supply
        ≤ supply_for curve s.curve_state.decimals (s.curve_state.reserve + c.amount) := by
      omega
    simp [execute_buy, must_pay, checkedSub, hf, h0, hden, hns]
  · have h0 : ¬ c.amount = 0 := by omega
    have hns : s.curve_state.supply
        ≤ supply_for curve s.curve_state.decimals (s.curve_state.reserve + c.amount) := by
      omega
    have hz : supply_for curve s.curve_state.decimals (s.curve_state.reserve + c.amount)
        - s.curve_state.supply = 0 := by omega
    simp [execute_buy, must_pay, checkedSub, execute_mint, hf, h0, hden, hns, hz]
  · have h0 : ¬ c.amount = 0 := by omega
    have hns : s.curve_state.supply
        ≤ supply_for curve s.curve_state.decimals (s.curve_state.reserve + c.amount) := by
      omega
    have hz : ¬ (supply_for curve s.curve_state.decimals (s.curve_state.reserve + c.amount)
        - s.curve_state.supply = 0) := by omega
    simp [execute_buy, must_pay, checkedSub, execute_mint, buyResult,
      hf, h0, hden, hns, hz, hm, hcap]

/-- Counterexample for C5: with a constant curve of value 3 (no decimal
normalization) and the zeroed instantiated state, paying 1 unit of the
reserve denomination is a valid single correctly-denominated positive
payment and the minted difference `supply_for(0 + 1) - 0 = 0` is not
negative, yet the Buy does not succeed with the claimed state update: it
fails with the ledger's zero-amount mint error. -/
theorem execute_buy_claim_refuted :
    execute_buy stateWzero3 envW ⟨"alice", [⟨"satoshi", 1⟩]⟩ (.constant 3 0)
      = .error .invalidZeroAmount ∧
    supply_for (.constant 3 0) ⟨0, 0⟩ (0 + 1) = 0 ∧
    ¬ supply_for (.constant 3 0) ⟨0, 0⟩ (0 + 1) < 0 := by
  refine ⟨rfl, by decide, by decide⟩

/-- Witness for C5 (amended): each branch at a concrete input — no
funds; a zero-amount coin; a wrong denomination; multiple denominations;
a cached supply above the curve value (overflow error); and a successful
buy of 5 at the identity curve minting 5. -/
theorem execute_buy_spec_witness :
    (execute_buy stateWzero3 envW ⟨"alice", []⟩ (.constant 3 0)
      = .error .paymentNoFunds) ∧
    (execute_buy stateWzero3 envW ⟨"alice", [⟨"satoshi", 0⟩]⟩ (.constant 3 0)
      = .error .paymentNoFunds) ∧
    (execute_buy stateWzero3 envW ⟨"alice", [⟨"wei", 7⟩]⟩ (.constant 3 0)
      = .error (.paymentMissingDenom stateWzero3.curve_state.reserve_denom)) ∧
    (execute_buy stateWzero3 envW
        ⟨"alice", [⟨"satoshi", 7⟩, ⟨"wei", 7⟩]⟩ (.constant 3 0)
      = .error .paymentMultipleDenoms) ∧
    (execute_buy stateWsup10 envW ⟨"alice", [⟨"satoshi", 1⟩]⟩ (.constant 1 0)
      = .error (.stdOverflowSub
        (supply_for (.constant 1 0) stateWsup10.curve_state.decimals
          (stateWsup10.curve_state.reserve + 1))
        stateWsup10.curve_state.supply)) ∧
    (execute_buy stateWzero3 envW ⟨"alice", [⟨"satoshi", 5⟩]⟩ (.constant 1 0)
      = .ok (buyResult stateWzero3 "alice" (.constant 1 0) 5)) :=
  ⟨(execute_buy_spec stateWzero3 envW ⟨"alice", []⟩ (.constant 3 0)).1 rfl,
    (execute_buy_spec stateWzero3 envW ⟨"alice", [⟨"satoshi", 0⟩]⟩
      (.constant 3 0)).2.1 ⟨"satoshi", 0⟩ rfl rfl,
    (execute_buy_spec stateWzero3 envW ⟨"alice", [⟨"wei", 7⟩]⟩
      (.constant 3 0)).2.2.1 ⟨"wei", 7⟩ rfl (by decide) (by decide),
    (execute_buy_spec stateWzero3 envW ⟨"alice", [⟨"satoshi", 7⟩, ⟨"wei", 7⟩]⟩
      (.constant 3 0)).2.2.2.1 ⟨"satoshi", 7⟩ ⟨"wei", 7⟩ [] rfl,
    (execute_buy_spec stateWsup10 envW ⟨"alice", [⟨"satoshi", 1⟩]⟩
      (.constant 1 0)).2.2.2.2.1 ⟨"satoshi", 1⟩ rfl (by decide) (by decide)
      (by decide),
    (execute_buy_spec stateWzero3 envW ⟨"alice", [⟨"satoshi", 5⟩]⟩
      (.constant 1 0)).2.2.2.2.2.2 ⟨"satoshi", 5⟩ rfl (by decide) (by decide)
      rfl rfl (by decide)⟩

/-- Replacing one balance changes the ledger sum by exactly the
difference between the new and the old value. -/
theorem sumBal_setBal (l : List (String × Nat)) (a : String) (v : Nat) :
    sumBal (setBal l a v) + getBal l a = sumBal l + v := by
  induction l with
  | nil => simp [setBal, getBal, sumBal]
  | cons p t ih =>
    obtain ⟨b, w⟩ := p
    by_cases h : b = a
    · simp [setBal, getBal, sumBal, h]
      omega
    · simp [setBal, getBal, sumBal, h] at ih ⊢
      omega

/-- Mapping a function over the `Except` monad succeeds exactly when
the argument does. -/
theorem except_map_ok_iff {a b : Type} {x : Except ContractError a}
    {f : a → b} {y : b} :
    Except.map f x = .ok y ↔ ∃ v, x = .ok v ∧ f v = y := by
  cases x <;> simp [Except.map]

/-- A successful mint preserves the ledger invariant
`sum(balances) = total_supply`. -/
theorem execute_mint_sum {s : ContractState} {info : MessageInfo}
    {recipient : String} {amount : Nat} {s' : ContractState} {resp : Response}
    (h : execute_mint s info recipient amount = .ok (s', resp))
    (hinv : sumBal s.balances = s.token_info.total_supply) :
    sumBal s'.balances = s'.token_info.total_supply := by
  obtain ⟨_, _, hs⟩ := execute_mint_ok h
  subst hs
  have := sumBal_setBal s.balances recipient (getBal s.balances recipient + amount)
  simp only []
  omega

/-- A successful burn preserves the ledger invariant
`sum(balances) = total_supply`. -/
theorem execute_burn_sum {s : ContractState} {info : MessageInfo}
    {amount : Nat} {s' : ContractState} {resp : Response}
    (h : execute_burn s info amount = .ok (s', resp))
    (hinv : sumBal s.balances = s.token_info.total_supply) :
    sumBal s'.balances = s'.token_info.total_supply := by
  obtain ⟨_, hble, htle, hs⟩ := execute_burn_ok h
  subst hs
  have := sumBal_setBal s.balances info.sender
    (getBal s.balances info.sender - amount)
  simp only []
  omega

/-- A successful sell preserves the ledger invariant: the burn deducts
equally from the seller's balance and the total supply, and the curve
update touches neither. -/
theorem do_sell_sum {s : ContractState} {info : MessageInfo}
    {curve : CurveType} {receiver : String} {amount : Nat}
    {s' : ContractState} {resp : Response}
    (h : do_sell s info curve receiver amount = .ok (s', resp))
    (hinv : sumBal s.balances = s.token_info.total_supply) :
    sumBal s'.balances = s'.token_info.total_supply := by
  unfold do_sell at h
  simp only [exceptThrow, exceptPure, exceptBindOk, exceptBindError,
    except_bind_ok_iff] at h
  obtain ⟨⟨s1, r1⟩, hburn, h⟩ := h
  simp only [except_bind_ok_iff] at h
  obtain ⟨sup', hsup, h⟩ := h
  obtain ⟨released, hrel, h⟩ := h
  simp only [exceptPure, Except.ok.injEq, Prod.mk.injEq] at h
  obtain ⟨hs', hresp⟩ := h
  subst hs'
  have := execute_burn_sum hburn hinv
  simpa using this

/-- A successful buy preserves the ledger invariant: only the mint
touches balances and total supply, and it adds the same amount to both. -/
theorem execute_buy_sum {s : ContractState} {env : Env}
    {info : MessageInfo} {curve : CurveType}
    {s' : ContractState} {resp : Response}
    (h : execute_buy s env info curve = .ok (s', resp))
    (hinv : sumBal s.balances = s.token_info.total_supply) :
    sumBal s'.balances = s'.token_info.total_supply := by
  unfold execute_buy at h
  simp only [exceptThrow, exceptPure, exceptBindOk, exceptBindError,
    except_bind_ok_iff] at h
  obtain ⟨payment, hpay, h⟩ := h
  obtain ⟨minted, hmint, h⟩ := h
  obtain ⟨⟨s2, r2⟩, hmint2, h⟩ := h
  simp only [exceptPure, Except.ok.injEq, Prod.mk.injEq] at h
  obtain ⟨hs', hresp⟩ := h
  subst hs'
  exact execute_mint_sum hmint2 hinv

/-- Every successful trade operation (buy, self sell, delegated sell)
preserves the ledger invariant `sum(balances) = total_supply`. -/
theorem runTrade_sum {curve : CurveType} {env : Env} {s : ContractState}
    {op : TradeOp} {s' : ContractState}
    (h : runTrade curve env s op = .ok s')
    (hinv : sumBal s.balances = s.token_info.total_supply) :
    sumBal s'.balances = s'.token_info.total_supply := by
  cases op with
  | buy sender funds =>
    simp only [runTrade] at h
    rw [except_map_ok_iff] at h
    obtain ⟨⟨s1, r1⟩, hbuy, hfst⟩ := h
    subst hfst
    exact execute_buy_sum hbuy hinv
  | sell sender funds amount =>
    simp only [runTrade, execute_sell] at h
    rw [except_map_ok_iff] at h
    obtain ⟨⟨s1, r1⟩, hsell, hfst⟩ := h
    subst hfst
    simp only [exceptThrow, exceptPure, exceptBindOk, exceptBindError,
      except_bind_ok_iff, nonpayable] at hsell
    split at hsell
    · simp only [exceptPure, exceptBindOk, except_bind_ok_iff] at hsell
      obtain ⟨-, -, ⟨s2, r2⟩, hds, heq⟩ := hsell
      simp only [Except.ok.injEq, Prod.mk.injEq] at heq
      obtain ⟨hs2, -⟩ := heq
      subst hs2
      simpa using do_sell_sum hds hinv
    · simp at hsell
  | sellFrom spender funds owner amount =>
    simp only [runTrade, execute_sell_from] at h
    rw [except_map_ok_iff] at h
    obtain ⟨⟨s1, r1⟩, hsell, hfst⟩ := h
    subst hfst
    simp only [exceptThrow, exceptPure, exceptBindOk, exceptBindError,
      except_bind_ok_iff, nonpayable] at hsell
    split at hsell
    · simp only [exceptPure, exceptBindOk, except_bind_ok_iff] at hsell
      obtain ⟨-, -, s2, hded, ⟨s3, r3⟩, hds, heq⟩ := hsell
      simp only [Except.ok.injEq, Prod.mk.injEq] at heq
      obtain ⟨hs3, -⟩ := heq
      subst hs3
      have hinv2 : sumBal s2.balances = s2.token_info.total_supply := by
        simp only [deduct_allowance] at hded
        split at hded
        · cases hded
          simpa using hinv
        · cases hded
      simpa using do_sell_sum hds hinv2
    · simp at hsell

/-- The ledger invariant is preserved along every successful sequence of
trade operations. -/
theorem runTrades_sum {curve : CurveType} {env : Env} :
    ∀ (ops : List TradeOp) (s s' : ContractState),
      sumBal s.balances = s.token_info.total_supply →
      runTrades curve env ops s = .ok s' →
      sumBal s'.balances = s'.token_info.total_supply := by
  intro ops
  induction ops with
  | nil =>
    intro s s' hinv h
    unfold runTrades at h
    cases h
    exact hinv
  | cons op rest ih =>
    intro s s' hinv h
    unfold runTrades at h
    simp only [except_bind_ok_iff] at h
    obtain ⟨s1, h1, h2⟩ := h
    exact ih s1 s' (runTrade_sum h1 hinv) h2

/-- C6: for every sequence of buy and sell operations starting from the
instantiated state, the sum of all per-account ledger balances equals
the total supply after every operation (every prefix of a successful run
is itself a successful run, so the invariant holds at each step); in
particular every mint and every burn preserves this equality
(`execute_mint_sum`, `execute_burn_sum`). -/
theorem trades_preserve_ledger_sum (env : Env) (info : MessageInfo)
    (msg : InstantiateMsg) (validators : List String) (denom : String)
    (curve : CurveType) (s0 : ContractState)
    (h0 : instantiate env info msg validators denom = .ok s0)
    (ops : List TradeOp) (s' : ContractState)
    (h : runTrades curve env ops s0 = .ok s') :
    sumBal s'.balances = s'.token_info.total_supply := by
  have hinv : sumBal s0.balances = s0.token_info.total_supply := by
    unfold instantiate nonpayable at h0
    simp only [exceptThrow, exceptPure, exceptBindOk, exceptBindError] at h0
    split at h0
    · split at h0
      · cases h0
      · cases h0
        rfl
    · cases h0
  exact runTrades_sum ops s0 s' hinv h

/-- Witness for C6: instantiating and then running a buy of 100 followed
by a sell of 40 on the identity curve ends at stateWts, where the ledger
sum equals the total supply. -/
theorem trades_preserve_ledger_sum_witness :
    sumBal stateWts.balances = stateWts.token_info.total_supply :=
  trades_preserve_ledger_sum envW ⟨"creator", []⟩ msgW ["valid8r"] "ustake"
    (.constant 1 0) stateW0 rfl
    [.buy "bob" [⟨"ustake", 100⟩], .sell "bob" [] 40] stateWts rfl

/-- Supply accounting of a successful buy: the curve supply becomes the
curve value of the new reserve and the total supply grows by exactly the
minted difference. -/
theorem execute_buy_supply {s : ContractState} {env : Env}
    {info : MessageInfo} {curve : CurveType}
    {s' : ContractState} {resp : Response}
    (h : execute_buy s env info curve = .ok (s', resp)) :
    ∃ payment,
      s.curve_state.supply
          ≤ supply_for curve s.curve_state.decimals (s.curve_state.reserve + payment) ∧
      s'.curve_state.supply
        = supply_for curve s.curve_state.decimals (s.curve_state.reserve + payment) ∧
      s'.token_info.total_supply = s.token_info.total_supply
        + (supply_for curve s.curve_state.decimals (s.curve_state.reserve + payment)
          - s.curve_state.supply) := by
  unfold execute_buy at h
  simp only [exceptThrow, exceptPure, exceptBindOk, exceptBindError,
    except_bind_ok_iff] at h
  obtain ⟨payment, hpay, h⟩ := h
  obtain ⟨minted, hmintsub, h⟩ := h
  rw [checkedSub_eq_ok] at hmintsub
  obtain ⟨hle, hmeq⟩ := hmintsub
  obtain ⟨⟨s2, r2⟩, hmint2, h⟩ := h
  obtain ⟨-, -, hs2⟩ := execute_mint_ok hmint2
  subst hs2
  simp only [exceptPure, Except.ok.injEq, Prod.mk.injEq] at h
  obtain ⟨hs', -⟩ := h
  subst hs'
  subst hmeq
  exact ⟨payment, hle, rfl, rfl⟩

/-- Supply accounting of a successful bond: identical to buy. -/
theorem bond_supply {s : ContractState} {env : Env} {info : MessageInfo}
    {curve : CurveType} {q : Querier} {s' : ContractState} {resp : Response}
    (h : bond s env info curve q = .ok (s', resp)) :
    ∃ payment,
      s.curve_state.supply
          ≤ supply_for curve s.curve_state.decimals (s.curve_state.reserve + payment) ∧
      s'.curve_state.supply
        = supply_for curve s.curve_state.decimals (s.curve_state.reserve + payment) ∧
      s'.token_info.total_supply = s.token_info.total_supply
        + (supply_for curve s.curve_state.decimals (s.curve_state.reserve + payment)
          - s.curve_state.supply) := by
  unfold bond at h
  simp only [exceptThrow, exceptPure, exceptBindOk, exceptBindError,
    except_bind_ok_iff] at h
  split at h
  · rename_i payment hfind
    simp only [except_bind_ok_iff] at h
    obtain ⟨bonded, hbonded, h⟩ := h
    obtain ⟨u, hassert, h⟩ := h
    obtain ⟨minted, hmintsub, h⟩ := h
    rw [checkedSub_eq_ok] at hmintsub
    obtain ⟨hle, hmeq⟩ := hmintsub
    obtain ⟨⟨s2, r2⟩, hmint2, h⟩ := h
    obtain ⟨-, -, hs2⟩ := execute_mint_ok hmint2
    subst hs2
    simp only [exceptPure, Except.ok.injEq, Prod.mk.injEq] at h
    obtain ⟨hs', -⟩ := h
    subst hs'
    subst hmeq
    exact ⟨payment.amount, hle, rfl, rfl⟩
  · simp at h

/-- Supply accounting of a successful sell: both the curve supply and
the total supply drop by exactly the burnt amount. -/
theorem do_sell_supply {s : ContractState} {info : MessageInfo}
    {curve : CurveType} {receiver : String} {amount : Nat}
    {s' : ContractState} {resp : Response}
    (h : do_sell s info curve receiver amount = .ok (s', resp)) :
    amount ≤ s.curve_state.supply ∧ amount ≤ s.token_info.total_supply ∧
    s'.curve_state.supply = s.curve_state.supply - amount ∧
    s'.token_info.total_supply = s.token_info.total_supply - amount := by
  unfold do_sell at h
  simp only [exceptThrow, exceptPure, exceptBindOk, exceptBindError,
    except_bind_ok_iff] at h
  obtain ⟨⟨s1, r1⟩, hburn, h⟩ := h
  obtain ⟨-, -, htle, hs1⟩ := execute_burn_ok hburn
  simp only [except_bind_ok_iff] at h
  obtain ⟨sup', hsup, h⟩ := h
  rw [checkedSub_eq_ok] at hsup
  obtain ⟨hsle, hseq⟩ := hsup
  obtain ⟨released, hrel, h⟩ := h
  simp only [exceptPure, Except.ok.injEq, Prod.mk.injEq] at h
  obtain ⟨hs', -⟩ := h
  subst hs'
  subst hs1
  subst hseq
  exact ⟨by simpa using hsle, htle, rfl, rfl⟩

/-- Supply accounting of a successful unbond: the tax is covered by the
amount, the remainder is covered by the curve supply and the amount by
the total supply, and both supplies drop by exactly `amount - tax`. -/
theorem unbond_supply {s : ContractState} {env : Env} {info : MessageInfo}
    {curve : CurveType} {q : Querier} {amount : Nat}
    {s' : ContractState} {resp : Response}
    (h : unbond s env info curve q amount = .ok (s', resp)) :
    decMul amount s.invest.exit_tax ≤ amount ∧
    amount - decMul amount s.invest.exit_tax ≤ s.curve_state.supply ∧
    amount ≤ s.token_info.total_supply ∧
    s'.curve_state.supply
      = s.curve_state.supply - (amount - decMul amount s.invest.exit_tax) ∧
    s'.token_info.total_supply
      = s.token_info.total_supply - (amount - decMul amount s.invest.exit_tax) := by
  unfold unbond at h
  simp only [exceptThrow, exceptPure, exceptBindOk, exceptBindError] at h
  split at h
  · simp at h
  · simp only [except_bind_ok_iff] at h
    obtain ⟨⟨s1, r1⟩, hburn, h⟩ := h
    obtain ⟨hpos, hble, htle, hs1⟩ := execute_burn_ok hburn
    split at h
    · rename_i htax0
      simp only [exceptPure, exceptBindOk, except_bind_ok_iff] at h
      obtain ⟨⟨s2, r2⟩, hmint, h⟩ := h
      obtain ⟨hpos2, hmint2, hs2⟩ := execute_mint_ok hmint
      simp only [except_bind_ok_iff] at h
      obtain ⟨bonded, hbonded, h⟩ := h
      obtain ⟨u, hassert, h⟩ := h
      obtain ⟨amt, hamt, h⟩ := h
      rw [checkedSub_eq_ok] at hamt
      obtain ⟨htax, hamteq⟩ := hamt
      obtain ⟨sup', hsup, h⟩ := h
      rw [checkedSub_eq_ok] at hsup
      obtain ⟨hsuple, hsupeq⟩ := hsup
      obtain ⟨unb, hunb, h⟩ := h
      simp only [exceptPure, Except.ok.injEq, Prod.mk.injEq] at h
      obtain ⟨hs', -⟩ := h
      subst hs'
      subst hs2
      subst hs1
      subst hamteq
      subst hsupeq
      refine ⟨htax, by simpa using hsuple, htle, by simp [create_claim], ?_⟩
      simp [create_claim]
      omega
    · rename_i htax0
      simp only [exceptPure, exceptBindOk, except_bind_ok_iff] at h
      obtain ⟨bonded, hbonded, h⟩ := h
      obtain ⟨u, hassert, h⟩ := h
      obtain ⟨amt, hamt, h⟩ := h
      rw [checkedSub_eq_ok] at hamt
      obtain ⟨htax, hamteq⟩ := hamt
      obtain ⟨sup', hsup, h⟩ := h
      rw [checkedSub_eq_ok] at hsup
      obtain ⟨hsuple, hsupeq⟩ := hsup
      obtain ⟨unb, hunb, h⟩ := h
      simp only [exceptPure, Except.ok.injEq, Prod.mk.injEq] at h
      obtain ⟨hs', -⟩ := h
      subst hs'
      subst hs1
      subst hamteq
      subst hsupeq
      refine ⟨htax, by simpa using hsuple, htle, by simp [create_claim], ?_⟩
      simp [create_claim]
      omega

/-- Every successful supply-relevant operation preserves the invariant
`total_supply = CurveState.supply`. -/
theorem runStOp_supply {curve : CurveType} {env : Env} {s : ContractState}
    {op : StOp} {s' : ContractState}
    (h : runStOp curve env s op = .ok s')
    (hinv : s.token_info.total_supply = s.curve_state.supply) :
    s'.token_info.total_supply = s'.curve_state.supply := by
  cases op with
  | trade top =>
    cases top with
    | buy sender funds =>
      simp only [runStOp, runTrade] at h
      rw [except_map_ok_iff] at h
      obtain ⟨⟨s1, r1⟩, hbuy, hfst⟩ := h
      subst hfst
      obtain ⟨payment, hle, hsup, htot⟩ := execute_buy_supply hbuy
      simp only [] at hsup htot ⊢
      omega
    | sell sender funds amount =>
      simp only [runStOp, runTrade, execute_sell] at h
      rw [except_map_ok_iff] at h
      obtain ⟨⟨s1, r1⟩, hsell, hfst⟩ := h
      subst hfst
      simp only [exceptThrow, exceptPure, exceptBindOk, exceptBindError,
        except_bind_ok_iff, nonpayable] at hsell
      split at hsell
      · obtain ⟨-, -, ⟨s2, r2⟩, hds, heq⟩ := hsell
        simp only [Except.ok.injEq, Prod.mk.injEq] at heq
        obtain ⟨hs2, -⟩ := heq
        subst hs2
        obtain ⟨h1, h2, h3, h4⟩ := do_sell_supply hds
        simp only []
        omega
      · simp at hsell
    | sellFrom spender funds owner amount =>
      simp only [runStOp, runTrade, execute_sell_from] at h
      rw [except_map_ok_iff] at h
      obtain ⟨⟨s1, r1⟩, hsell, hfst⟩ := h
      subst hfst
      simp only [exceptThrow, exceptPure, exceptBindOk, exceptBindError,
        except_bind_ok_iff, nonpayable] at hsell
      split at hsell
      · obtain ⟨-, -, s2, hded, ⟨s3, r3⟩, hds, heq⟩ := hsell
        simp only [Except.ok.injEq, Prod.mk.injEq] at heq
        obtain ⟨hs3, -⟩ := heq
        subst hs3
        have hpres : s2.token_info.total_supply = s2.curve_state.supply := by
          simp only [deduct_allowance] at hded
          split at hded
          · cases hded
            simpa using hinv
          · cases hded
        obtain ⟨h1, h2, h3, h4⟩ := do_sell_supply hds
        simp only []
        omega
      · simp at hsell
  | bond sender funds q =>
    simp only [runStOp] at h
    rw [except_map_ok_iff] at h
    obtain ⟨⟨s1, r1⟩, hbond, hfst⟩ := h
    subst hfst
    obtain ⟨payment, hle, hsup, htot⟩ := bond_supply hbond
    simp only [] at hsup htot ⊢
    omega
  | unbond sender amount q =>
    simp only [runStOp] at h
    rw [except_map_ok_iff] at h
    obtain ⟨⟨s1, r1⟩, hunb, hfst⟩ := h
    subst hfst
    obtain ⟨h1, h2, h3, h4, h5⟩ := unbond_supply hunb
    simp only [] at h4 h5 ⊢
    omega

/-- The supply invariant is preserved along every successful sequence. -/
theorem runStOps_supply {curve : CurveType} {env : Env} :
    ∀ (ops : List StOp) (s s' : ContractState),
      s.token_info.total_supply = s.curve_state.supply →
      runStOps curve env ops s = .ok s' →
      s'.token_info.total_supply = s'.curve_state.supply := by
  intro ops
  induction ops with
  | nil =>
    intro s s' hinv h
    unfold runStOps at h
    cases h
    exact hinv
  | cons op rest ih =>
    intro s s' hinv h
    unfold runStOps at h
    simp only [except_bind_ok_iff] at h
    obtain ⟨s1, h1, h2⟩ := h
    exact ih s1 s' (runStOp_supply h1 hinv) h2

/-- C10: the token ledger's total supply equals `CurveState.supply` at
instantiation and after every successful sequence of Buy, Sell (self or
delegated), Bond and Unbond operations; in particular a successful
Unbond decreases both by exactly `amount - tax`, because the tax is
re-minted to the owner while only `amount - tax` leaves the curve
supply. -/
theorem total_supply_tracks_curve (env : Env) (info : MessageInfo)
    (msg : InstantiateMsg) (validators : List String) (denom : String)
    (curve : CurveType) (s0 : ContractState)
    (h0 : instantiate env info msg validators denom = .ok s0) :
    (∀ ops s', runStOps curve env ops s0 = .ok s' →
      s'.token_info.total_supply = s'.curve_state.supply) ∧
    (∀ (s : ContractState) (sender : String) (amount : Nat) (q : Querier)
        (s₁ : ContractState),
      runStOp curve env s (.unbond sender amount q) = .ok s₁ →
      s₁.curve_state.supply + (amount - decMul amount s.invest.exit_tax)
        = s.curve_state.supply ∧
      s₁.token_info.total_supply + (amount - decMul amount s.invest.exit_tax)
        = s.token_info.total_supply) := by
  have hinv : s0.token_info.total_supply = s0.curve_state.supply := by
    unfold instantiate nonpayable at h0
    simp only [exceptThrow, exceptPure, exceptBindOk, exceptBindError] at h0
    split at h0
    · split at h0
      · cases h0
      · cases h0
        rfl
    · cases h0
  refine ⟨fun ops s' h => runStOps_supply ops s0 s' hinv h, ?_⟩
  intro s sender amount q s₁ h
  simp only [runStOp] at h
  rw [except_map_ok_iff] at h
  obtain ⟨⟨s1, r1⟩, hunb, hfst⟩ := h
  subst hfst
  obtain ⟨h1, h2, h3, h4, h5⟩ := unbond_supply hunb
  simp only [] at h4 h5 ⊢
  constructor
  · omega
  · omega

/-- Witness for C10: after bonding 1000 and unbonding 600 (10% tax) on
the identity curve the total supply equals the curve supply (460), and
the unbond step decreased both by exactly `600 - 60 = 540`. -/
theorem total_supply_tracks_curve_witness :
    (stateWu.token_info.total_supply = stateWu.curve_state.supply) ∧
    (stateWu.curve_state.supply + (600 - decMul 600 stateW1.invest.exit_tax)
        = stateW1.curve_state.supply ∧
      stateWu.token_info.total_supply + (600 - decMul 600 stateW1.invest.exit_tax)
        = stateW1.token_info.total_supply) :=
  ⟨(total_supply_tracks_curve envW ⟨"creator", []⟩ msgW ["valid8r"] "ustake"
      (.constant 1 0) stateW0 rfl).1
      [.bond "bob" [⟨"ustake", 1000⟩] ⟨[], 0⟩,
        .unbond "bob" 600 ⟨[⟨"ustake", 1000⟩], 0⟩] stateWu rfl,
    (total_supply_tracks_curve envW ⟨"creator", []⟩ msgW ["valid8r"] "ustake"
      (.constant 1 0) stateW0 rfl).2 stateW1 "bob" 600
      ⟨[⟨"ustake", 1000⟩], 0⟩ stateWu rfl⟩

/-- C8 (amended): buying with payment `p` and then immediately selling
the entire minted amount releases at most `p` whenever the starting
state carries no truncation surplus, i.e. when
`reserve ≤ reserve_for(supply)` (as after any sell); in general the
release exceeds `p` by exactly the surplus `reserve - reserve_for(supply)`
already sitting in the pool, so the bound fails for arbitrary curve
states. -/
theorem buy_then_sell_never_profits (s : ContractState) (env : Env)
    (buyer : String) (curve : CurveType) (p : Nat)
    (s1 : ContractState) (r1 : Response) (s2 : ContractState) (r2 : Response)
    (minted : Nat)
    (hsurplus : s.curve_state.reserve
      ≤ reserve_for curve s.curve_state.decimals s.curve_state.supply)
    (hbuy : execute_buy s env ⟨buyer, [⟨s.curve_state.reserve_denom, p⟩]⟩ curve
      = .ok (s1, r1))
    (hminted : minted = s1.curve_state.supply - s.curve_state.supply)
    (hsell : execute_sell s1 ⟨buyer, []⟩ curve minted = .ok (s2, r2)) :
    sentAmount r2 ≤ p := by
  unfold execute_buy must_pay at hbuy
  simp only [exceptThrow, exceptPure, exceptBindOk, exceptBindError,
    except_bind_ok_iff] at hbuy
  split at hbuy
  · simp at hbuy
  · obtain ⟨m, hmsub, hbuy⟩ := hbuy
    simp only [if_true, Except.ok.injEq] at hmsub
    subst hmsub
    obtain ⟨mv, hmvsub, hbuy⟩ := hbuy
    rw [checkedSub_eq_ok] at hmvsub
    obtain ⟨hle, hmeq⟩ := hmvsub
    obtain ⟨⟨s3, r3⟩, hmint, hbuy⟩ := hbuy
    obtain ⟨-, -, hs3⟩ := execute_mint_ok hmint
    subst hs3
    simp only [exceptPure, Except.ok.injEq, Prod.mk.injEq] at hbuy
    obtain ⟨hs1, -⟩ := hbuy
    subst hs1
    simp only [execute_sell, nonpayable, if_pos rfl, exceptPure, exceptBindOk,
      except_bind_ok_iff] at hsell
    obtain ⟨-, -, ⟨s4, r4⟩, hds, heq⟩ := hsell
    simp only [Except.ok.injEq, Prod.mk.injEq] at heq
    obtain ⟨-, hr2⟩ := heq
    unfold do_sell at hds
    simp only [exceptThrow, exceptPure, exceptBindOk, exceptBindError,
      except_bind_ok_iff] at hds
    obtain ⟨⟨s5, r5⟩, hburn, hds⟩ := hds
    obtain ⟨-, -, -, hs5⟩ := execute_burn_ok hburn
    subst hs5
    simp only [except_bind_ok_iff] at hds
    obtain ⟨sup2, hsup2, hds⟩ := hds
    rw [checkedSub_eq_ok] at hsup2
    obtain ⟨hsup2le, hsup2eq⟩ := hsup2
    obtain ⟨released, hrel, hds⟩ := hds
    rw [checkedSub_eq_ok] at hrel
    obtain ⟨hrelle, hreleq⟩ := hrel
    simp only [exceptPure, Except.ok.injEq, Prod.mk.injEq] at hds
    obtain ⟨-, hr4⟩ := hds
    subst hr2
    subst hr4
    simp only [sentAmount]
    simp only [] at hminted hsup2eq hreleq hrelle hsup2le
    have hsup2v : sup2 = s.curve_state.supply := by omega
    subst hsup2v
    subst hreleq
    omega

/-- Counterexample for C8: at the constant-3 curve, buying 5 from the
zeroed state leaves a truncation surplus (reserve 5, supply 1 worth only
3).  From that state — reachable by a single Buy — buying p = 3 mints
one token, and immediately selling that one minted token releases 5,
which exceeds the payment 3: the claim fails for this curve state. -/
theorem buy_then_sell_claim_refuted :
    ((execute_buy stateWzero3 envW ⟨"bob", [⟨"satoshi", 5⟩]⟩
        (.constant 3 0)).toOption.map (fun x => x.1) = some stateWbuy) ∧
    (((execute_buy stateWbuy envW ⟨"alice", [⟨"satoshi", 3⟩]⟩
          (.constant 3 0)).toOption.bind
        (fun x => (execute_sell x.1 ⟨"alice", []⟩ (.constant 3 0)
          (x.1.curve_state.supply - stateWbuy.curve_state.supply)).toOption)).map
        (fun x => sentAmount x.2) = some 5) ∧
    ¬ (5 : Nat) ≤ 3 := by
  refine ⟨rfl, rfl, by decide⟩

/-- Witness for C8 (amended): a fresh contract (reserve 0, supply 0,
`reserve_for(0) = 0`, so no surplus) where buying 5 at the identity
curve and selling the 5 minted tokens releases exactly 5 ≤ 5. -/
theorem buy_then_sell_never_profits_witness :
    sentAmount respSold ≤ 5 :=
  buy_then_sell_never_profits stateWzero3 envW "alice" (.constant 1 0) 5
    (buyResult stateWzero3 "alice" (.constant 1 0) 5).1
    (buyResult stateWzero3 "alice" (.constant 1 0) 5).2
    stateWsold respSold
    5 (by decide) rfl (by decide) rfl

/-- The integer cube root cubed never exceeds its argument. -/
theorem natCbrt_pow_le (n : Nat) : natCbrt n ^ 3 ≤ n := by
  rcases Nat.eq_zero_or_pos (natCbrt n) with h | h
  · simp [h]
  · have hspec := Nat.findGreatest_spec (P := fun k => k ^ 3 ≤ n) (m := 0)
      (Nat.zero_le n) (by norm_num)
    simpa [natCbrt] using hspec

/-- The successor of the integer cube root cubed exceeds the argument. -/
theorem lt_natCbrt_succ (n : Nat) : n < (natCbrt n + 1) ^ 3 := by
  by_contra hcon
  push_neg at hcon
  have hle : natCbrt n + 1 ≤ n := by
    calc natCbrt n + 1 ≤ (natCbrt n + 1) ^ 3 :=
          Nat.le_self_pow (by norm_num) (natCbrt n + 1)
    _ ≤ n := hcon
  have := Nat.le_findGreatest (P := fun k => k ^ 3 ≤ n) hle hcon
  unfold natCbrt at this
  omega

/-- C7 (amended): for every valid reserve value `r`, every configured
curve shape with a positive slope/value, and every decimal scaling,
`reserve_for(supply_for(r)) ≤ r` (the conservative direction of the
round-trip law: truncation never over-returns); and the shortfall is
bounded not by one minimal reserve unit but by the reserve increment of
one more minimal supply unit: `r ≤ reserve_for(supply_for(r) + 1)`. -/
theorem round_trip_conservative (curve : CurveType) (dp : DecimalPlaces)
    (hv : curve.valid) (r : Nat) :
    reserve_for curve dp (supply_for curve dp r) ≤ r ∧
    r ≤ reserve_for curve dp (supply_for curve dp r + 1) := by
  cases curve with
  | constant v sc =>
    have hv' : 0 < v := hv
    have hK : 0 < 10 ^ (sc + dp.supply) := Nat.pow_pos (by norm_num)
    have hB : 0 < v * 10 ^ dp.reserve := by positivity
    simp only [supply_for, reserve_for]
    set K := 10 ^ (sc + dp.supply) with hKdef
    set B := v * 10 ^ dp.reserve with hBdef
    set q := r * K / B with hqdef
    constructor
    · have h2 : q * v * 10 ^ dp.reserve = q * B := by rw [hBdef]; ring
      rw [h2]
      have h1 : q * B ≤ r * K := by
        rw [hqdef]
        exact Nat.div_mul_le_self _ _
      calc q * B / K ≤ r * K / K := Nat.div_le_div_right h1
      _ = r := Nat.mul_div_cancel r hK
    · have h2 : (q + 1) * v * 10 ^ dp.reserve = (q + 1) * B := by rw [hBdef]; ring
      rw [h2, Nat.le_div_iff_mul_le hK]
      have hdm := Nat.div_add_mod (r * K) B
      have hmod := Nat.mod_lt (r * K) hB
      calc r * K = B * q + r * K % B := hdm.symm
      _ ≤ B * q + B := Nat.add_le_add_left (Nat.le_of_lt hmod) _
      _ = (q + 1) * B := by ring
  | linear sl sc =>
    have hsl : 0 < sl := hv
    have hD : 0 < 2 * 10 ^ (sc + 2 * dp.supply) := by positivity
    have hB : 0 < sl * 10 ^ dp.reserve := by positivity
    simp only [supply_for, reserve_for]
    set D := 2 * 10 ^ (sc + 2 * dp.supply) with hDdef
    set B := sl * 10 ^ dp.reserve with hBdef
    set m := 2 * r * 10 ^ (sc + 2 * dp.supply) / B with hmdef
    set q := Nat.sqrt m with hqdef
    have hA : 2 * r * 10 ^ (sc + 2 * dp.supply) = r * D := by rw [hDdef]; ring
    constructor
    · have h2 : q ^ 2 * sl * 10 ^ dp.reserve = q ^ 2 * B := by rw [hBdef]; ring
      rw [h2]
      have h1 : q ^ 2 ≤ m := by rw [hqdef]; exact Nat.sqrt_le' m
      have h3 : q ^ 2 * B ≤ m * B := Nat.mul_le_mul_right B h1
      have h4 : m * B ≤ r * D := by
        rw [hmdef, ← hA]
        exact Nat.div_mul_le_self _ _
      calc q ^ 2 * B / D ≤ r * D / D := Nat.div_le_div_right (le_trans h3 h4)
      _ = r := Nat.mul_div_cancel r hD
    · have h2 : (q + 1) ^ 2 * sl * 10 ^ dp.reserve = (q + 1) ^ 2 * B := by
        rw [hBdef]; ring
      rw [h2, Nat.le_div_iff_mul_le hD]
      have hlt : m < (q + 1) * (q + 1) := by
        rw [hqdef]
        exact Nat.lt_succ_sqrt m
      have hdm := Nat.div_add_mod (2 * r * 10 ^ (sc + 2 * dp.supply)) B
      have hmod := Nat.mod_lt (2 * r * 10 ^ (sc + 2 * dp.supply)) hB
      have hsucc : m + 1 ≤ (q + 1) * (q + 1) := Nat.succ_le_of_lt hlt
      calc r * D = 2 * r * 10 ^ (sc + 2 * dp.supply) := hA.symm
      _ = B * m + 2 * r * 10 ^ (sc + 2 * dp.supply) % B := hdm.symm
      _ ≤ B * m + B := Nat.add_le_add_left (Nat.le_of_lt hmod) _
      _ = B * (m + 1) := by ring
      _ ≤ B * ((q + 1) * (q + 1)) := Nat.mul_le_mul_left B hsucc
      _ = (q + 1) ^ 2 * B := by ring
  | squareRoot sl sc =>
    have hsl : 0 < sl := hv
    have hH : 0 < 9 * 10 ^ (2 * sc + 3 * dp.supply) := by positivity
    have hF : 0 < 4 * sl ^ 2 * 10 ^ (2 * dp.reserve) := by positivity
    simp only [supply_for, reserve_for]
    set H := 9 * 10 ^ (2 * sc + 3 * dp.supply) with hHdef
    set F := 4 * sl ^ 2 * 10 ^ (2 * dp.reserve) with hFdef
    set e := 9 * r ^ 2 * 10 ^ (2 * sc + 3 * dp.supply) with hedef
    set q := natCbrt (e / F) with hqdef
    have hE : e = r * r * H := by rw [hedef, hHdef]; ring
    constructor
    · have h1 : q ^ 3 ≤ e / F := by rw [hqdef]; exact natCbrt_pow_le (e / F)
      have h3 : F * q ^ 3 ≤ F * (e / F) := Nat.mul_le_mul_left F h1
      have h4 : F * (e / F) ≤ e := Nat.mul_div_le e F
      have h5 : F * q ^ 3 / H ≤ r * r := by
        calc F * q ^ 3 / H ≤ e / H := Nat.div_le_div_right (le_trans h3 h4)
        _ = r * r * H / H := by rw [hE]
        _ = r * r := Nat.mul_div_cancel _ hH
      calc Nat.sqrt (F * q ^ 3 / H) ≤ Nat.sqrt (r * r) := Nat.sqrt_le_sqrt h5
      _ = r := Nat.sqrt_eq r
    · rw [Nat.le_sqrt, Nat.le_div_iff_mul_le hH]
      have hlt : e / F < (q + 1) ^ 3 := by rw [hqdef]; exact lt_natCbrt_succ (e / F)
      have hsucc : e / F + 1 ≤ (q + 1) ^ 3 := Nat.succ_le_of_lt hlt
      have hdm := Nat.div_add_mod e F
      have hmod := Nat.mod_lt e hF
      calc r * r * H = e := hE.symm
      _ = F * (e / F) + e % F := hdm.symm
      _ ≤ F * (e / F) + F := Nat.add_le_add_left (Nat.le_of_lt hmod) _
      _ = F * (e / F + 1) := by ring
      _ ≤ F * (q + 1) ^ 3 := Nat.mul_le_mul_left F hsucc

/-- Counterexample for C7: at the constant curve of value 3 with no
decimal scaling, `reserve_for(supply_for(5)) = 3`, so the round-trip gap
is `5 - 3 = 2` minimal reserve units — more than the one unit the claim
allows (truncation loses up to the reserve value of one supply unit, not
one reserve unit). -/
theorem round_trip_unit_gap_refuted :
    reserve_for (.constant 3 0) ⟨0, 0⟩ (supply_for (.constant 3 0) ⟨0, 0⟩ 5) = 3 ∧
    ¬ (5 - reserve_for (.constant 3 0) ⟨0, 0⟩
        (supply_for (.constant 3 0) ⟨0, 0⟩ 5) ≤ 1) := by
  decide

/-- Witness for C7 (amended): at the constant-3 curve and r = 5, the
round trip returns 3 ≤ 5, and one more supply unit is worth 6 ≥ 5. -/
theorem round_trip_conservative_witness :
    reserve_for (.constant 3 0) ⟨0, 0⟩ (supply_for (.constant 3 0) ⟨0, 0⟩ 5) ≤ 5 ∧
    5 ≤ reserve_for (.constant 3 0) ⟨0, 0⟩
      (supply_for (.constant 3 0) ⟨0, 0⟩ 5 + 1) :=
  round_trip_conservative (.constant 3 0) ⟨0, 0⟩ (by decide) 5

end Bondcamp
